import Mathlib

/-!
Verification development for the Monobank MCP server (src/main.py).

The file shallowly embeds the two tool operations, `get_client_info` and
`get_statement`, together with the pydantic record types they validate
(`Account`, `Jar`, `ClientInfo`, `StatementItem`), the `model_dump`
serialization, and the statement post-processing loop (timestamp
formatting, minor-unit division, field redaction).

Library semantics that the Python code relies on are embedded as follows:

* JSON documents (the result of `response.json()`) are the inductive `Json`.
* pydantic validation is embedded field by field: required fields reject a
  missing key or a value of a different JSON type, optional fields turn a
  missing key or an explicit null into `none`, aliased fields are read from
  their camel-case wire key only, and unknown keys are ignored (pydantic's
  default `extra = "ignore"`).  pydantic's lax numeric-string coercions are
  not exercised by any claim and are not modelled; `model_dump` emits every
  declared field, with `None` dumped as JSON null.
* Python float division `item[key] / 100` (CPython `long_true_divide`) is
  the IEEE-754 binary64 correctly rounded quotient, ties to even, raising
  OverflowError when the rounded result is at least 2^1024.  It is embedded
  by `pyDiv100`, computed exactly over the integers; a binary64 value is a
  `PyFloat` mantissa/exponent pair whose exact rational value is
  `PyFloat.toRat`.
* `datetime.utcfromtimestamp(t).strftime("%Y-%m-%dT%H:%M:%SZ")` is embedded
  by `pyUtcFormat`, translating CPython's `_ord2ymd` proleptic-Gregorian
  algorithm faithfully; `datetime` raises ValueError outside years 1..9999.
  Below year 1000 the `%Y` directive's zero padding is platform dependent,
  so `pyUtcFormat` is only relied upon (in the theorems) for years
  1000..9999, where the output shape is platform independent.
* The single outbound HTTP request is an oracle `world : Nat → HttpResult`
  giving the outcome of the n-th request the operation would issue; the
  code issues exactly one.  `httpx.RequestError` (transport failure),
  re-raised as `ConnectionError`, is `PyError.connectionFailure`;
  `response.raise_for_status()` raising `httpx.HTTPStatusError` on any
  non-2xx status is `PyError.upstreamError`; `pydantic.ValidationError` is
  `PyError.validationFailure`.
* `datetime.now().timestamp()` truncated to an integer is the oracle
  parameter `now`.
-/

namespace Monobank

/-- JSON values, as produced by `response.json()` and as returned to the
tool caller after transformation.  `float` carries an exact binary64 value
as a mantissa/exponent pair. -/
inductive Json where
  | null : Json
  | bool (b : Bool) : Json
  | int (n : Int) : Json
  | float (m : Int) (k : Int) : Json
  | str (s : String) : Json
  | arr (xs : List Json) : Json
  | obj (kvs : List (String × Json)) : Json

/-- The typed failure outcomes an operation can raise.
`connectionFailure` is the `ConnectionError` wrapping an
`httpx.RequestError`; `upstreamError` is `httpx.HTTPStatusError` carrying
the non-2xx status; `validationFailure` is `pydantic.ValidationError`;
`valueError` is the `ValueError` raised by `datetime.utcfromtimestamp`
outside years 1..9999; `overflowError` is the `OverflowError` raised by
integer true division when the quotient exceeds the binary64 range. -/
inductive PyError where
  | connectionFailure (cause : String)
  | upstreamError (status : Nat)
  | validationFailure
  | valueError
  | overflowError
  deriving DecidableEq

/-- Outcome of one outbound HTTP request: either the transport layer fails
(`httpx.RequestError`) or a response with some status code and JSON body
arrives. -/
inductive HttpResult where
  | transportError (cause : String)
  | response (status : Nat) (body : Json)

/-- The `Account` pydantic model (src/main.py lines 25-34). -/
structure Account where
  id : String
  send_id : String
  balance : Int
  credit_limit : Int
  type : String
  currency_code : Int
  cashback_type : String
  masked_pan : List String
  iban : String

/-- The `Jar` pydantic model (src/main.py lines 37-44). -/
structure Jar where
  id : String
  send_id : String
  title : String
  description : Option String
  currency_code : Int
  balance : Int
  goal : Option Int

/-- The `ClientInfo` pydantic model (src/main.py lines 47-53). -/
structure ClientInfo where
  client_id : String
  name : String
  webhook_url : String
  permissions : String
  accounts : List Account
  jars : Option (List Jar)

/-- The `StatementItem` pydantic model (src/main.py lines 56-74). -/
structure StatementItem where
  id : String
  time : Int
  description : String
  mcc : Int
  original_mcc : Int
  hold : Bool
  amount : Int
  operation_amount : Int
  currency_code : Int
  commission_rate : Int
  cashback_amount : Int
  balance : Int
  comment : Option String
  receipt_id : Option String
  invoice_id : Option String
  counter_edrpou : Option String
  counter_iban : Option String
  counter_name : Option String

/-- First-match key lookup in a JSON object (Python dicts parsed from JSON
have unique keys, so first match agrees with dict access). -/
def jget (o : List (String × Json)) (k : String) : Option Json :=
  match o with
  | [] => none
  | (k2, v) :: rest => if k2 = k then some v else jget rest k

/-- Validate a required string field. -/
def reqStr (o : List (String × Json)) (k : String) : Except PyError String :=
  match jget o k with
  | some (.str s) => .ok s
  | _ => .error .validationFailure

/-- Validate a required integer field. -/
def reqInt (o : List (String × Json)) (k : String) : Except PyError Int :=
  match jget o k with
  | some (.int n) => .ok n
  | _ => .error .validationFailure

/-- Validate a required boolean field. -/
def reqBool (o : List (String × Json)) (k : String) : Except PyError Bool :=
  match jget o k with
  | some (.bool b) => .ok b
  | _ => .error .validationFailure

/-- Validate an `Optional[str]` field with default `None`: a missing key or
an explicit null validates to `none`. -/
def optStr (o : List (String × Json)) (k : String) : Except PyError (Option String) :=
  match jget o k with
  | none => .ok none
  | some .null => .ok none
  | some (.str s) => .ok (some s)
  | _ => .error .validationFailure

/-- Validate an `Optional[int]` field with default `None`. -/
def optInt (o : List (String × Json)) (k : String) : Except PyError (Option Int) :=
  match jget o k with
  | none => .ok none
  | some .null => .ok none
  | some (.int n) => .ok (some n)
  | _ => .error .validationFailure

/-- Validate a list of JSON strings (`List[str]`). -/
def strList (xs : List Json) : Except PyError (List String) :=
  match xs with
  | [] => .ok []
  | .str s :: rest => do
      let l ← strList rest
      .ok (s :: l)
  | _ => .error .validationFailure

/-- Validate a required `List[str]` field. -/
def reqStrList (o : List (String × Json)) (k : String) : Except PyError (List String) :=
  match jget o k with
  | some (.arr xs) => strList xs
  | _ => .error .validationFailure

/-- Validation of one `Account` object, reading aliased fields from their
camel-case wire keys. -/
def validateAccount (j : Json) : Except PyError Account :=
  match j with
  | .obj o => do
      let i ← reqStr o "id"
      let sid ← reqStr o "sendId"
      let bal ← reqInt o "balance"
      let cl ← reqInt o "creditLimit"
      let ty ← reqStr o "type"
      let cc ← reqInt o "currencyCode"
      let cbt ← reqStr o "cashbackType"
      let mp ← reqStrList o "maskedPan"
      let ib ← reqStr o "iban"
      .ok { id := i, send_id := sid, balance := bal, credit_limit := cl,
            type := ty, currency_code := cc, cashback_type := cbt,
            masked_pan := mp, iban := ib }
  | _ => .error .validationFailure

/-- Validation of a list of accounts, all-or-nothing. -/
def validateAccounts (xs : List Json) : Except PyError (List Account) :=
  match xs with
  | [] => .ok []
  | x :: rest => do
      let a ← validateAccount x
      let l ← validateAccounts rest
      .ok (a :: l)

/-- Validation of one `Jar` object. -/
def validateJar (j : Json) : Except PyError Jar :=
  match j with
  | .obj o => do
      let i ← reqStr o "id"
      let sid ← reqStr o "sendId"
      let ti ← reqStr o "title"
      let de ← optStr o "description"
      let cc ← reqInt o "currencyCode"
      let bal ← reqInt o "balance"
      let go ← optInt o "goal"
      .ok { id := i, send_id := sid, title := ti, description := de,
            currency_code := cc, balance := bal, goal := go }
  | _ => .error .validationFailure

/-- Validation of a list of jars, all-or-nothing. -/
def validateJars (xs : List Json) : Except PyError (List Jar) :=
  match xs with
  | [] => .ok []
  | x :: rest => do
      let a ← validateJar x
      let l ← validateJars rest
      .ok (a :: l)

/-- `ClientInfo.model_validate`: validates the whole client-info document,
rejecting it if any required field is missing or of the wrong type. -/
def validateClientInfo (j : Json) : Except PyError ClientInfo :=
  match j with
  | .obj o => do
      let cid ← reqStr o "clientId"
      let nm ← reqStr o "name"
      let wh ← reqStr o "webHookUrl"
      let pm ← reqStr o "permissions"
      let acc ← (match jget o "accounts" with
        | some (.arr xs) => validateAccounts xs
        | _ => .error .validationFailure)
      let js ← (match jget o "jars" with
        | none => .ok none
        | some .null => .ok none
        | some (.arr xs) => do
            let l ← validateJars xs
            .ok (some l)
        | _ => .error .validationFailure)
      .ok { client_id := cid, name := nm, webhook_url := wh,
            permissions := pm, accounts := acc, jars := js }
  | _ => .error .validationFailure

/-- Validation of one `StatementItem` object. -/
def validateStatementItem (j : Json) : Except PyError StatementItem :=
  match j with
  | .obj o => do
      let i ← reqStr o "id"
      let tm ← reqInt o "time"
      let de ← reqStr o "description"
      let mc ← reqInt o "mcc"
      let om ← reqInt o "originalMcc"
      let ho ← reqBool o "hold"
      let am ← reqInt o "amount"
      let oa ← reqInt o "operationAmount"
      let cc ← reqInt o "currencyCode"
      let cr ← reqInt o "commissionRate"
      let cb ← reqInt o "cashbackAmount"
      let bal ← reqInt o "balance"
      let co ← optStr o "comment"
      let ri ← optStr o "receiptId"
      let ii ← optStr o "invoiceId"
      let ce ← optStr o "counterEdrpou"
      let cib ← optStr o "counterIban"
      let cn ← optStr o "counterName"
      .ok { id := i, time := tm, description := de, mcc := mc,
            original_mcc := om, hold := ho, amount := am,
            operation_amount := oa, currency_code := cc,
            commission_rate := cr, cashback_amount := cb, balance := bal,
            comment := co, receipt_id := ri, invoice_id := ii,
            counter_edrpou := ce, counter_iban := cib, counter_name := cn }
  | _ => .error .validationFailure

/-- All-or-nothing validation of the statement array's elements. -/
def validateItemList (xs : List Json) : Except PyError (List StatementItem) :=
  match xs with
  | [] => .ok []
  | x :: rest => do
      let it ← validateStatementItem x
      let l ← validateItemList rest
      .ok (it :: l)

/-- `TypeAdapter(List[StatementItem]).validate_python` on the parsed JSON
body: the body must be an array and every element must validate. -/
def validateStatementItems (j : Json) : Except PyError (List StatementItem) :=
  match j with
  | .arr xs => validateItemList xs
  | _ => .error .validationFailure

/-- `model_dump` of an `Option String`: `None` dumps as JSON null. -/
def jsonOfOptStr (v : Option String) : Json :=
  match v with
  | none => .null
  | some s => .str s

/-- `model_dump` of an `Account` (all fields, canonical snake-case names,
declaration order). -/
def dumpAccount (a : Account) : Json :=
  .obj [("id", .str a.id), ("send_id", .str a.send_id),
        ("balance", .int a.balance), ("credit_limit", .int a.credit_limit),
        ("type", .str a.type), ("currency_code", .int a.currency_code),
        ("cashback_type", .str a.cashback_type),
        ("masked_pan", .arr (a.masked_pan.map Json.str)),
        ("iban", .str a.iban)]

/-- `model_dump` of a `Jar`. -/
def dumpJar (j : Jar) : Json :=
  .obj [("id", .str j.id), ("send_id", .str j.send_id),
        ("title", .str j.title), ("description", jsonOfOptStr j.description),
        ("currency_code", .int j.currency_code), ("balance", .int j.balance),
        ("goal", match j.goal with | none => .null | some g => .int g)]

/-- `model_dump` of a `ClientInfo`: every declared field is emitted, an
absent `jars` is emitted as null. -/
def dumpClientInfo (c : ClientInfo) : List (String × Json) :=
  [("client_id", .str c.client_id), ("name", .str c.name),
   ("webhook_url", .str c.webhook_url), ("permissions", .str c.permissions),
   ("accounts", .arr (c.accounts.map dumpAccount)),
   ("jars", match c.jars with
     | none => .null
     | some js => .arr (js.map dumpJar))]

/-- `model_dump` of a `StatementItem`: all 18 declared fields in
declaration order, absent optionals emitted as null. -/
def dumpStatementItem (it : StatementItem) : List (String × Json) :=
  [("id", .str it.id), ("time", .int it.time),
   ("description", .str it.description), ("mcc", .int it.mcc),
   ("original_mcc", .int it.original_mcc), ("hold", .bool it.hold),
   ("amount", .int it.amount), ("operation_amount", .int it.operation_amount),
   ("currency_code", .int it.currency_code),
   ("commission_rate", .int it.commission_rate),
   ("cashback_amount", .int it.cashback_amount), ("balance", .int it.balance),
   ("comment", jsonOfOptStr it.comment),
   ("receipt_id", jsonOfOptStr it.receipt_id),
   ("invoice_id", jsonOfOptStr it.invoice_id),
   ("counter_edrpou", jsonOfOptStr it.counter_edrpou),
   ("counter_iban", jsonOfOptStr it.counter_iban),
   ("counter_name", jsonOfOptStr it.counter_name)]

/-- Exact value of a binary64 mantissa/exponent pair, as a rational. -/
def floatVal (m : Int) (k : Int) : ℚ := (m : ℚ) * (2 : ℚ) ^ k

/-- Fuel-driven binary logarithm (structural recursion, kernel friendly). -/
def log2fuel : Nat → Nat → Nat
  | 0, _ => 0
  | fuel + 1, n => if 2 ≤ n then log2fuel fuel (n / 2) + 1 else 0

/-- Binary logarithm of a positive natural. -/
def natLog2 (n : Nat) : Nat := log2fuel n n

/-- Whether `2 ^ e ≤ n / 100` holds as an exact rational comparison,
decided entirely over the integers. -/
def pow2Le100 (n : Nat) (e : Int) : Bool :=
  if 0 ≤ e then decide (100 * 2 ^ e.toNat ≤ n) else decide (100 ≤ n * 2 ^ (-e).toNat)

/-- The binary exponent of `n / 100` for positive `n`: the unique `e` with
`2 ^ e ≤ n / 100 < 2 ^ (e + 1)`. -/
def floatExp (n : Nat) : Int :=
  let e0 : Int := (natLog2 n : Int) - 6
  if pow2Le100 n e0 then e0 else e0 - 1

/-- Round `num / den` to the nearest integer, ties to even. -/
def roundAux (num den : Nat) : Nat :=
  if den < 2 * (num % den) ∨
      (2 * (num % den) = den ∧ (num / den) % 2 = 1) then
    num / den + 1
  else num / den

/-- Round `(n / 100) * 2 ^ (52 - e)` to the nearest integer, ties to even
(the binary64 significand of `n / 100` when `e` is its exponent). -/
def roundMantissa (n : Nat) (e : Int) : Nat :=
  roundAux (n * 2 ^ (52 - e).toNat) (100 * 2 ^ (e - 52).toNat)

/-- CPython integer true division by 100 (`item[key] / 100`): the IEEE-754
binary64 correctly rounded quotient with ties to even, raising
OverflowError when the rounded magnitude reaches `2 ^ 1024`.  The result
is exact: a mantissa/exponent pair whose rational value is the double's
value. -/
def pyDiv100 (a : Int) : Except PyError (Int × Int) :=
  if a = 0 then .ok (0, 0)
  else
    let n := a.natAbs
    let e := floatExp n
    let m := roundMantissa n e
    if 52 ≤ e ∧ 2 ^ 1024 ≤ m * 2 ^ (e - 52).toNat then .error .overflowError
    else .ok (if a < 0 then -(m : Int) else (m : Int), e - 52)

/-- Proleptic-Gregorian leap year test (CPython `datetime._is_leap`). -/
def isLeap (y : Nat) : Bool :=
  y % 4 == 0 && (y % 100 != 0 || y % 400 == 0)

/-- CPython `datetime._DAYS_IN_MONTH` (non-leap lengths). -/
def daysInMonthTable (m : Nat) : Nat :=
  match m with
  | 1 => 31 | 2 => 28 | 3 => 31 | 4 => 30 | 5 => 31 | 6 => 30
  | 7 => 31 | 8 => 31 | 9 => 30 | 10 => 31 | 11 => 30 | 12 => 31
  | _ => 0

/-- CPython `datetime._DAYS_BEFORE_MONTH`. -/
def daysBeforeMonthTable (m : Nat) : Nat :=
  match m with
  | 1 => 0 | 2 => 31 | 3 => 59 | 4 => 90 | 5 => 120 | 6 => 151
  | 7 => 181 | 8 => 212 | 9 => 243 | 10 => 273 | 11 => 304 | 12 => 334
  | _ => 0

/-- Days in the given month of the given year (CPython `_days_in_month`). -/
def daysInMonth (y m : Nat) : Nat :=
  daysInMonthTable m + (if m = 2 ∧ isLeap y then 1 else 0)

/-- Days before the given month in the given year
(CPython `_days_before_month`). -/
def daysBeforeMonth (y m : Nat) : Nat :=
  daysBeforeMonthTable m + (if 2 < m ∧ isLeap y then 1 else 0)

/-- Days before January 1st of the given year
(CPython `_days_before_year`). -/
def daysBeforeYear (y : Nat) : Nat :=
  (y - 1) * 365 + (y - 1) / 4 - (y - 1) / 100 + (y - 1) / 400

/-- Proleptic-Gregorian ordinal of a calendar date
(CPython `datetime._ymd2ord`; ordinal 1 is 0001-01-01). -/
def ymd2ord (y m d : Nat) : Nat :=
  daysBeforeYear y + daysBeforeMonth y m + d

/-- Calendar date of day number `n` counted from 0001-01-01 = day 0
(CPython `datetime._ord2ymd` applied to ordinal `n + 1`, translated
verbatim: 400/100/4/1-year block decomposition, then the shifted month
estimate with its one-step correction). -/
def ord2ymd (n : Nat) : Nat × Nat × Nat :=
  let n400 := n / 146097
  let r400 := n % 146097
  let n100 := r400 / 36524
  let r100 := r400 % 36524
  let n4 := r100 / 1461
  let r4 := r100 % 1461
  let n1 := r4 / 365
  let r1 := r4 % 365
  let year := n400 * 400 + 1 + n100 * 100 + n4 * 4 + n1
  if n1 = 4 ∨ n100 = 4 then (year - 1, 12, 31)
  else
    let leap := n1 == 3 && (n4 != 24 || n100 == 3)
    let month := (r1 + 50) / 32
    let preceding := daysBeforeMonthTable month + (if 2 < month ∧ leap = true then 1 else 0)
    let month2 := if r1 < preceding then month - 1 else month
    let preceding2 :=
      if r1 < preceding then
        preceding - (daysInMonthTable month2 + (if month2 = 2 ∧ leap = true then 1 else 0))
      else preceding
    (year, month2, r1 - preceding2 + 1)

/-- Seconds between 0001-01-01T00:00:00 and 1970-01-01T00:00:00 (UTC). -/
def epochShift : Nat := 62135596800

/-- ASCII digit character. -/
def digitChar (d : Nat) : Char := Char.ofNat (48 + d)

/-- Two-digit zero-padded decimal rendering. -/
def pad2 (n : Nat) : List Char := [digitChar (n / 10 % 10), digitChar (n % 10)]

/-- Four-digit zero-padded decimal rendering. -/
def pad4 (n : Nat) : List Char :=
  [digitChar (n / 1000 % 10), digitChar (n / 100 % 10),
   digitChar (n / 10 % 10), digitChar (n % 10)]

/-- The rendered `YYYY-MM-DDTHH:MM:SSZ` string for the given fields. -/
def isoString (y mo d hh mm ss : Nat) : String :=
  String.mk (pad4 y ++ '-' :: pad2 mo ++ '-' :: pad2 d ++ 'T' :: pad2 hh ++
    ':' :: pad2 mm ++ ':' :: pad2 ss ++ ['Z'])

/-- Formats the instant `n` seconds after 0001-01-01T00:00:00 UTC. -/
def isoFormat (n : Nat) : String :=
  let days := n / 86400
  let sod := n % 86400
  let ymd := ord2ymd days
  isoString ymd.1 ymd.2.1 ymd.2.2 (sod / 3600) (sod % 3600 / 60) (sod % 60)

/-- `datetime.utcfromtimestamp(t).strftime("%Y-%m-%dT%H:%M:%SZ")`:
raises ValueError when the instant falls outside years 1..9999 (the
`datetime` range); otherwise renders the UTC civil time.  (For years
below 1000 the zero padding of `%Y` is platform dependent; the theorems
below only use this function on years 1000..9999.) -/
def pyUtcFormat (t : Int) : Except PyError String :=
  if -62135596800 ≤ t ∧ t ≤ 253402300799 then
    .ok (isoFormat (t + 62135596800).toNat)
  else .error .valueError

/-- Whether a string has the exact shape `YYYY-MM-DDTHH:MM:SSZ`: length 20,
digits in the date/time positions, literal separators, trailing Z. -/
def matchesIsoShape (s : String) : Bool :=
  match s.data with
  | [y1, y2, y3, y4, s1, o1, o2, s2, d1, d2, s3, h1, h2, s4, m1, m2, s5, c1, c2, s6] =>
      y1.isDigit && y2.isDigit && y3.isDigit && y4.isDigit && s1 == '-' &&
      o1.isDigit && o2.isDigit && s2 == '-' && d1.isDigit && d2.isDigit &&
      s3 == 'T' && h1.isDigit && h2.isDigit && s4 == ':' && m1.isDigit &&
      m2.isDigit && s5 == ':' && c1.isDigit && c2.isDigit && s6 == 'Z'
  | _ => false

/-- The UTC epoch-seconds instant denoted by civil fields `y-mo-d hh:mm:ss`. -/
def epochOfFields (y mo d hh mm ss : Nat) : Int :=
  ((ymd2ord y mo d : Int) - 1) * 86400 + hh * 3600 + mm * 60 + ss - 62135596800

/-- In-place value update of a dict entry (`item[key] = value` for a key
already present: position and the other entries are unchanged). -/
def setKey (o : List (String × Json)) (k : String) (v : Json) : List (String × Json) :=
  o.map fun kv => if kv.1 = k then (k, v) else kv

/-- `item.pop(field, None)` for the four redacted fields: removes them,
keeping the remaining entries in order. -/
def popRedacted (o : List (String × Json)) : List (String × Json) :=
  o.filter fun kv =>
    !(kv.1 == "id" || kv.1 == "invoice_id" || kv.1 == "counter_edrpou" ||
      kv.1 == "counter_iban")

/-- Read the integer stored at `key` of a dumped item (`item[key]`; on the
dicts this is applied to, the key is always present and holds an int). -/
def getIntAt (o : List (String × Json)) (k : String) : Except PyError Int :=
  match jget o k with
  | some (.int n) => .ok n
  | _ => .error .valueError

/-- The body of the `for item in items:` loop of `get_statement`, applied
to one dumped item: format the timestamp, divide the five monetary fields
by 100 (each in place), then pop the four redacted identifier fields. -/
def transformItem (o : List (String × Json)) : Except PyError (List (String × Json)) := do
  let t ← getIntAt o "time"
  let ts ← pyUtcFormat t
  let o := setKey o "time" (.str ts)
  let a1 ← getIntAt o "amount"
  let f1 ← pyDiv100 a1
  let o := setKey o "amount" (.float f1.1 f1.2)
  let a2 ← getIntAt o "operation_amount"
  let f2 ← pyDiv100 a2
  let o := setKey o "operation_amount" (.float f2.1 f2.2)
  let a3 ← getIntAt o "commission_rate"
  let f3 ← pyDiv100 a3
  let o := setKey o "commission_rate" (.float f3.1 f3.2)
  let a4 ← getIntAt o "cashback_amount"
  let f4 ← pyDiv100 a4
  let o := setKey o "cashback_amount" (.float f4.1 f4.2)
  let a5 ← getIntAt o "balance"
  let f5 ← pyDiv100 a5
  let o := setKey o "balance" (.float f5.1 f5.2)
  .ok (popRedacted o)

/-- The whole transformation loop: processes the dumped items in order,
aborting everything on the first raised error. -/
def transformList (items : List (List (String × Json))) :
    Except PyError (List (List (String × Json))) :=
  match items with
  | [] => .ok []
  | o :: rest => do
      let o2 ← transformItem o
      let l ← transformList rest
      .ok (o2 :: l)

/-- `get_client_info`, with the single outbound request's outcome supplied
by the oracle `world` (the value of `world i` is what the i-th request
issued by this call would return; the code issues exactly one). -/
def get_client_info (world : Nat → HttpResult) : Except PyError (List (String × Json)) :=
  match world 0 with
  | .transportError cause => .error (.connectionFailure cause)
  | .response status body =>
      if 200 ≤ status ∧ status ≤ 299 then
        match validateClientInfo body with
        | .ok c => .ok (dumpClientInfo c)
        | .error e => .error e
      else .error (.upstreamError status)

/-- The URL template of the statement request. -/
def statementUrl (account_id : String) (f t : Int) : String :=
  "https://api.monobank.ua/personal/statement/" ++ account_id ++ "/" ++
    toString f ++ "/" ++ toString t

/-- `get_statement`.  `now` is the integer wall-clock reading
`int(datetime.now().timestamp())` at call time; `world` is the request
oracle as in `get_client_info`.  Returns the requested URL together with
the outcome. -/
def get_statement (account_id : String) (from_timestamp to_timestamp : Int)
    (now : Int) (world : Nat → HttpResult) :
    String × Except PyError (List (List (String × Json))) :=
  let to_eff := if to_timestamp = 0 then now else to_timestamp
  let url := statementUrl account_id from_timestamp to_eff
  (url,
    match world 0 with
    | .transportError cause => .error (.connectionFailure cause)
    | .response status body =>
        if 200 ≤ status ∧ status ≤ 299 then
          match validateStatementItems body with
          | .ok items => transformList (items.map dumpStatementItem)
          | .error e => .error e
        else .error (.upstreamError status))

/-- The declared wire keys of `ClientInfo` (field names and aliases). -/
def clientInfoWireKeys : List String :=
  ["clientId", "name", "webHookUrl", "permissions", "accounts", "jars"]

/-- The declared wire keys of `Account`. -/
def accountWireKeys : List String :=
  ["id", "sendId", "balance", "creditLimit", "type", "currencyCode",
   "cashbackType", "maskedPan", "iban"]

/-- The declared wire keys of `Jar`. -/
def jarWireKeys : List String :=
  ["id", "sendId", "title", "description", "currencyCode", "balance", "goal"]

/-- The declared wire keys of `StatementItem`. -/
def statementItemWireKeys : List String :=
  ["id", "time", "description", "mcc", "originalMcc", "hold", "amount",
   "operationAmount", "currencyCode", "commissionRate", "cashbackAmount",
   "balance", "comment", "receiptId", "invoiceId", "counterEdrpou",
   "counterIban", "counterName"]

/-- The canonical key list of a dumped `StatementItem` before redaction. -/
def dumpedItemKeys : List String :=
  ["id", "time", "description", "mcc", "original_mcc", "hold", "amount",
   "operation_amount", "currency_code", "commission_rate", "cashback_amount",
   "balance", "comment", "receipt_id", "invoice_id", "counter_edrpou",
   "counter_iban", "counter_name"]

/-- The canonical key list of a dumped `ClientInfo`. -/
def dumpedClientInfoKeys : List String :=
  ["client_id", "name", "webhook_url", "permissions", "accounts", "jars"]

/-- The key list of every transformed statement record returned by
`get_statement`: the dump order with the four redacted fields removed. -/
def transformedItemKeys : List String :=
  ["time", "description", "mcc", "original_mcc", "hold", "amount",
   "operation_amount", "currency_code", "commission_rate", "cashback_amount",
   "balance", "comment", "receipt_id", "counter_name"]

/-- A concrete minimal valid client-info body whose optional `jars` key is
absent (used to exhibit the null-sentinel behaviour of `model_dump`). -/
def sampleClientBody : Json :=
  .obj [("clientId", .str "k"), ("name", .str "n"),
        ("webHookUrl", .str "w"), ("permissions", .str "p"),
        ("accounts", .arr [])]

/-- Wire-to-record correspondence for one account: every aliased field of
the wire object is reachable in the validated record, and the balances are
carried over without any unit conversion. -/
def accountAgrees (j : Json) (a : Account) : Prop :=
  ∃ ao, j = .obj ao ∧
    jget ao "id" = some (.str a.id) ∧
    jget ao "sendId" = some (.str a.send_id) ∧
    jget ao "balance" = some (.int a.balance) ∧
    jget ao "creditLimit" = some (.int a.credit_limit) ∧
    jget ao "type" = some (.str a.type) ∧
    jget ao "currencyCode" = some (.int a.currency_code) ∧
    jget ao "cashbackType" = some (.str a.cashback_type) ∧
    jget ao "maskedPan" = some (.arr (a.masked_pan.map Json.str)) ∧
    jget ao "iban" = some (.str a.iban)

/-- Predicate: this validation step can only fail with the
`validationFailure` kind. -/
def validationOnly {α : Type} (f : Except PyError α) : Prop :=
  ∀ e, f = .error e → e = .validationFailure

/-- The wire fields of a concrete well-formed statement item, with every
optional field absent. -/
def sampleItemFields : List (String × Json) :=
  [("id", .str "tx1"), ("time", .int 1700000000),
   ("description", .str "d"), ("mcc", .int 4829),
   ("originalMcc", .int 4829), ("hold", .bool false),
   ("amount", .int 123456), ("operationAmount", .int 123456),
   ("currencyCode", .int 980), ("commissionRate", .int 0),
   ("cashbackAmount", .int 1), ("balance", .int (-250))]

/-- A concrete well-formed statement item as delivered on the wire. -/
def sampleItemBody : Json := .obj sampleItemFields

/-- The validated record of `sampleItemBody`. -/
def sampleItem : StatementItem :=
  { id := "tx1", time := 1700000000, description := "d", mcc := 4829,
    original_mcc := 4829, hold := false, amount := 123456,
    operation_amount := 123456, currency_code := 980, commission_rate := 0,
    cashback_amount := 1, balance := -250, comment := none,
    receipt_id := none, invoice_id := none, counter_edrpou := none,
    counter_iban := none, counter_name := none }

/-- A request oracle that answers every request with HTTP 200 and a
one-element statement array. -/
def sampleWorld : Nat → HttpResult :=
  fun _ => .response 200 (.arr [sampleItemBody])

/-- The wire fields of a concrete account. -/
def sampleAccountFields : List (String × Json) :=
  [("id", .str "a1"), ("sendId", .str "s1"), ("balance", .int 100000),
   ("creditLimit", .int 0), ("type", .str "black"),
   ("currencyCode", .int 980), ("cashbackType", .str "UAH"),
   ("maskedPan", .arr [.str "537541******0000"]), ("iban", .str "UA1")]

/-- The wire fields of a concrete client-info document with one account
and no jars. -/
def sampleClientFields : List (String × Json) :=
  [("clientId", .str "k"), ("name", .str "n"), ("webHookUrl", .str "w"),
   ("permissions", .str "psfj"),
   ("accounts", .arr [.obj sampleAccountFields])]

/-- The validated record of `sampleAccountFields`. -/
def sampleAccount : Account :=
  { id := "a1", send_id := "s1", balance := 100000, credit_limit := 0,
    type := "black", currency_code := 980, cashback_type := "UAH",
    masked_pan := ["537541******0000"], iban := "UA1" }

/-- The validated record of `sampleClientFields`. -/
def sampleClient : ClientInfo :=
  { client_id := "k", name := "n", webhook_url := "w", permissions := "psfj",
    accounts := [sampleAccount], jars := none }

/-- What the statement transform guarantees for one monetary field whose
validated minor-unit value is `a`: the output holds exactly the binary64
value `pyDiv100 a` (the correctly rounded `a / 100`), whose exact rational
value is within relative error `2 ^ -53` of `a / 100` and has the sign of
`a`. -/
def fieldOk (o : List (String × Json)) (k : String) (a : Int) : Prop :=
  ∃ m ke, jget o k = some (.float m ke) ∧ pyDiv100 a = .ok (m, ke) ∧
    |floatVal m ke - (a : ℚ) / 100| ≤ |(a : ℚ) / 100| / 2 ^ 53 ∧
    (0 < a → 0 < floatVal m ke) ∧ (a < 0 → floatVal m ke < 0) ∧
    (a = 0 → floatVal m ke = 0)

/-- The transformed record produced from `sampleItemBody`: the binary64
values are written out exactly (1234.56 is 5429652300748554 * 2 ^ -42,
0.01 is 5764607523034235 * 2 ^ -59, -2.5 is -5629499534213120 * 2 ^ -51). -/
def sampleOut : List (String × Json) :=
  [("time", .str "2023-11-14T22:13:20Z"), ("description", .str "d"),
   ("mcc", .int 4829), ("original_mcc", .int 4829), ("hold", .bool false),
   ("amount", .float 5429652300748554 (-42)),
   ("operation_amount", .float 5429652300748554 (-42)),
   ("currency_code", .int 980), ("commission_rate", .float 0 0),
   ("cashback_amount", .float 5764607523034235 (-59)),
   ("balance", .float (-5629499534213120) (-51)),
   ("comment", .null), ("receipt_id", .null), ("counter_name", .null)]

/-- The wire fields of a well-formed statement item whose timestamp,
253402300800, is the first second of year 10000 — one past the highest
instant `datetime` can represent. -/
def lateItemFields : List (String × Json) :=
  [("id", .str "tx2"), ("time", .int 253402300800),
   ("description", .str "d"), ("mcc", .int 4829),
   ("originalMcc", .int 4829), ("hold", .bool false),
   ("amount", .int 100), ("operationAmount", .int 100),
   ("currencyCode", .int 980), ("commissionRate", .int 0),
   ("cashbackAmount", .int 0), ("balance", .int 100)]

/-- The late-timestamp item as delivered on the wire. -/
def lateItemBody : Json := .obj lateItemFields

/-- The validated record of `lateItemBody`. -/
def lateItem : StatementItem :=
  { id := "tx2", time := 253402300800, description := "d", mcc := 4829,
    original_mcc := 4829, hold := false, amount := 100,
    operation_amount := 100, currency_code := 980, commission_rate := 0,
    cashback_amount := 0, balance := 100, comment := none,
    receipt_id := none, invoice_id := none, counter_edrpou := none,
    counter_iban := none, counter_name := none }

/-- A request oracle that answers every request with HTTP 200 and the
one-element array holding the late-timestamp item. -/
def lateWorld : Nat → HttpResult :=
  fun _ => .response 200 (.arr [lateItemBody])

end Monobank

namespace Monobank

theorem validationOnly_bind {α β : Type} {f : Except PyError α}
    {g : α → Except PyError β} (hf : validationOnly f)
    (hg : ∀ a, validationOnly (g a)) : validationOnly (f >>= g) := by
  intro e he
  cases f with
  | error e2 =>
      have : e2 = e := by simpa [Bind.bind, Except.bind] using he
      exact this ▸ hf e2 rfl
  | ok a =>
      have : g a = .error e := by simpa [Bind.bind, Except.bind] using he
      exact hg a e this

theorem validationOnly_ok {α : Type} (a : α) :
    validationOnly (Except.ok (ε := PyError) a) := by
  intro e he
  cases he

theorem validationOnly_vf {α : Type} :
    validationOnly (Except.error (α := α) PyError.validationFailure) := by
  intro e he
  cases he
  rfl

theorem reqStr_vo (o : List (String × Json)) (k : String) :
    validationOnly (reqStr o k) := by
  unfold reqStr
  split
  · exact validationOnly_ok _
  · exact validationOnly_vf

theorem reqInt_vo (o : List (String × Json)) (k : String) :
    validationOnly (reqInt o k) := by
  unfold reqInt
  split
  · exact validationOnly_ok _
  · exact validationOnly_vf

theorem reqBool_vo (o : List (String × Json)) (k : String) :
    validationOnly (reqBool o k) := by
  unfold reqBool
  split
  · exact validationOnly_ok _
  · exact validationOnly_vf

theorem optStr_vo (o : List (String × Json)) (k : String) :
    validationOnly (optStr o k) := by
  unfold optStr
  split
  · exact validationOnly_ok _
  · exact validationOnly_ok _
  · exact validationOnly_ok _
  · exact validationOnly_vf

theorem optInt_vo (o : List (String × Json)) (k : String) :
    validationOnly (optInt o k) := by
  unfold optInt
  split
  · exact validationOnly_ok _
  · exact validationOnly_ok _
  · exact validationOnly_ok _
  · exact validationOnly_vf

theorem strList_vo (xs : List Json) : validationOnly (strList xs) := by
  induction xs with
  | nil => exact validationOnly_ok _
  | cons x rest ih =>
      cases x <;> simp only [strList] <;>
        first
          | exact validationOnly_vf
          | exact validationOnly_bind ih fun _ => validationOnly_ok _

theorem reqStrList_vo (o : List (String × Json)) (k : String) :
    validationOnly (reqStrList o k) := by
  unfold reqStrList
  split
  · exact strList_vo _
  · exact validationOnly_vf

theorem validateAccount_vo (j : Json) : validationOnly (validateAccount j) := by
  cases j <;> simp only [validateAccount] <;> try exact validationOnly_vf
  exact validationOnly_bind (reqStr_vo _ _) fun _ =>
    validationOnly_bind (reqStr_vo _ _) fun _ =>
    validationOnly_bind (reqInt_vo _ _) fun _ =>
    validationOnly_bind (reqInt_vo _ _) fun _ =>
    validationOnly_bind (reqStr_vo _ _) fun _ =>
    validationOnly_bind (reqInt_vo _ _) fun _ =>
    validationOnly_bind (reqStr_vo _ _) fun _ =>
    validationOnly_bind (reqStrList_vo _ _) fun _ =>
    validationOnly_bind (reqStr_vo _ _) fun _ => validationOnly_ok _

theorem validateAccounts_vo (xs : List Json) :
    validationOnly (validateAccounts xs) := by
  induction xs with
  | nil => exact validationOnly_ok _
  | cons x rest ih =>
      exact validationOnly_bind (validateAccount_vo x) fun _ =>
        validationOnly_bind ih fun _ => validationOnly_ok _

theorem validateJar_vo (j : Json) : validationOnly (validateJar j) := by
  cases j <;> simp only [validateJar] <;> try exact validationOnly_vf
  exact validationOnly_bind (reqStr_vo _ _) fun _ =>
    validationOnly_bind (reqStr_vo _ _) fun _ =>
    validationOnly_bind (reqStr_vo _ _) fun _ =>
    validationOnly_bind (optStr_vo _ _) fun _ =>
    validationOnly_bind (reqInt_vo _ _) fun _ =>
    validationOnly_bind (reqInt_vo _ _) fun _ =>
    validationOnly_bind (optInt_vo _ _) fun _ => validationOnly_ok _

theorem validateJars_vo (xs : List Json) : validationOnly (validateJars xs) := by
  induction xs with
  | nil => exact validationOnly_ok _
  | cons x rest ih =>
      exact validationOnly_bind (validateJar_vo x) fun _ =>
        validationOnly_bind ih fun _ => validationOnly_ok _

theorem validateClientInfo_vo (j : Json) :
    validationOnly (validateClientInfo j) := by
  cases j <;> simp only [validateClientInfo] <;> try exact validationOnly_vf
  refine validationOnly_bind (reqStr_vo _ _) fun _ =>
    validationOnly_bind (reqStr_vo _ _) fun _ =>
    validationOnly_bind (reqStr_vo _ _) fun _ =>
    validationOnly_bind (reqStr_vo _ _) fun _ =>
    validationOnly_bind ?_ fun _ => validationOnly_bind ?_ fun _ =>
      validationOnly_ok _
  · split
    · exact validateAccounts_vo _
    · exact validationOnly_vf
  · split
    · exact validationOnly_ok _
    · exact validationOnly_ok _
    · exact validationOnly_bind (validateJars_vo _) fun _ => validationOnly_ok _
    · exact validationOnly_vf

theorem validateClientInfo_error_kind (j : Json) (e : PyError)
    (h : validateClientInfo j = .error e) : e = .validationFailure :=
  validateClientInfo_vo j e h

theorem validateStatementItem_vo (j : Json) :
    validationOnly (validateStatementItem j) := by
  cases j <;> simp only [validateStatementItem] <;> try exact validationOnly_vf
  exact validationOnly_bind (reqStr_vo _ _) fun _ =>
    validationOnly_bind (reqInt_vo _ _) fun _ =>
    validationOnly_bind (reqStr_vo _ _) fun _ =>
    validationOnly_bind (reqInt_vo _ _) fun _ =>
    validationOnly_bind (reqInt_vo _ _) fun _ =>
    validationOnly_bind (reqBool_vo _ _) fun _ =>
    validationOnly_bind (reqInt_vo _ _) fun _ =>
    validationOnly_bind (reqInt_vo _ _) fun _ =>
    validationOnly_bind (reqInt_vo _ _) fun _ =>
    validationOnly_bind (reqInt_vo _ _) fun _ =>
    validationOnly_bind (reqInt_vo _ _) fun _ =>
    validationOnly_bind (reqInt_vo _ _) fun _ =>
    validationOnly_bind (optStr_vo _ _) fun _ =>
    validationOnly_bind (optStr_vo _ _) fun _ =>
    validationOnly_bind (optStr_vo _ _) fun _ =>
    validationOnly_bind (optStr_vo _ _) fun _ =>
    validationOnly_bind (optStr_vo _ _) fun _ =>
    validationOnly_bind (optStr_vo _ _) fun _ => validationOnly_ok _

theorem validateItemList_vo (xs : List Json) :
    validationOnly (validateItemList xs) := by
  induction xs with
  | nil => exact validationOnly_ok _
  | cons x rest ih =>
      exact validationOnly_bind (validateStatementItem_vo x) fun _ =>
        validationOnly_bind ih fun _ => validationOnly_ok _

theorem validateStatementItems_error_kind (j : Json) (e : PyError)
    (h : validateStatementItems j = .error e) : e = .validationFailure := by
  cases j <;> simp only [validateStatementItems] at h <;>
    first
      | exact validateItemList_vo _ e h
      | (cases h; rfl)

/-- Claim C6 part: the URL interpolation of `get_statement` uses `now` when
`to_timestamp` is zero and the given bound otherwise. -/
theorem claim_C6 (a : String) (f t now : Int) (w : Nat → HttpResult) :
    (t = 0 → (get_statement a f t now w).1 = statementUrl a f now) ∧
    (t ≠ 0 → (get_statement a f t now w).1 = statementUrl a f t) := by
  constructor
  · intro h
    simp [get_statement, h]
  · intro h
    simp [get_statement, h]

theorem claim_C6_witness :
    (get_statement "0" 1 0 1700000000 (fun _ => .transportError "refused")).1 =
      statementUrl "0" 1 1700000000 :=
  (claim_C6 "0" 1 0 1700000000 (fun _ => .transportError "refused")).1 rfl

/-- Claim C5: the failure outcome of either operation distinguishes the
three kinds: a transport error surfaces as `connectionFailure` wrapping the
cause, a non-2xx status as `upstreamError` carrying that status, a schema
mismatch as `validationFailure`; and each operation consults the request
oracle only at index 0, i.e. issues exactly one request with no retry. -/
theorem claim_C5 :
    (∀ w cause, w 0 = .transportError cause →
      get_client_info w = .error (.connectionFailure cause)) ∧
    (∀ w st body, w 0 = .response st body → ¬(200 ≤ st ∧ st ≤ 299) →
      get_client_info w = .error (.upstreamError st)) ∧
    (∀ w st body e, w 0 = .response st body → 200 ≤ st → st ≤ 299 →
      validateClientInfo body = .error e →
      get_client_info w = .error .validationFailure) ∧
    (∀ w w2, w 0 = w2 0 → get_client_info w = get_client_info w2) ∧
    (∀ a f t now w cause, w 0 = .transportError cause →
      (get_statement a f t now w).2 = .error (.connectionFailure cause)) ∧
    (∀ a f t now w st body, w 0 = .response st body → ¬(200 ≤ st ∧ st ≤ 299) →
      (get_statement a f t now w).2 = .error (.upstreamError st)) ∧
    (∀ a f t now w st body e, w 0 = .response st body → 200 ≤ st → st ≤ 299 →
      validateStatementItems body = .error e →
      (get_statement a f t now w).2 = .error .validationFailure) ∧
    (∀ a f t now w w2, w 0 = w2 0 →
      get_statement a f t now w = get_statement a f t now w2) := by
  refine ⟨?_, ?_, ?_, ?_, ?_, ?_, ?_, ?_⟩
  · intro w cause h
    simp [get_client_info, h]
  · intro w st body h hn
    simp [get_client_info, h, hn]
  · intro w st body e h h1 h2 hv
    have : e = .validationFailure := validateClientInfo_error_kind body e hv
    simp [get_client_info, h, if_pos (And.intro h1 h2), hv, this]
  · intro w w2 h
    simp [get_client_info, h]
  · intro a f t now w cause h
    simp [get_statement, h]
  · intro a f t now w st body h hn
    simp [get_statement, h, hn]
  · intro a f t now w st body e h h1 h2 hv
    have : e = .validationFailure := validateStatementItems_error_kind body e hv
    simp [get_statement, h, if_pos (And.intro h1 h2), hv, this]
  · intro a f t now w w2 h
    simp [get_statement, h]

theorem claim_C5_witness :
    get_client_info (fun _ => .response 429 .null) =
      .error (.upstreamError 429) :=
  claim_C5.2.1 (fun _ => .response 429 .null) 429 .null rfl (by decide)

theorem ebind_ok {α β : Type} (a : α) (g : α → Except PyError β) :
    (Except.ok a >>= g) = g a := rfl

theorem ebind_error {α β : Type} (e : PyError) (g : α → Except PyError β) :
    ((Except.error e : Except PyError α) >>= g) = .error e := rfl

theorem validateItemList_mem_error {xs : List Json} {x : Json} {e : PyError}
    (hx : x ∈ xs) (he : validateStatementItem x = .error e) :
    ∃ e2, validateItemList xs = .error e2 := by
  induction xs with
  | nil => cases hx
  | cons y rest ih =>
      cases hx with
      | head =>
          exact ⟨e, by simp only [validateItemList, he, ebind_error]⟩
      | tail _ h2 =>
          cases hy : validateStatementItem y with
          | error e3 =>
              exact ⟨e3, by simp only [validateItemList, hy, ebind_error]⟩
          | ok it =>
              obtain ⟨e2, hr⟩ := ih h2
              exact ⟨e2, by
                simp only [validateItemList, hy, ebind_ok, hr, ebind_error]⟩

/-- Claim C4: a statement response array with one element that fails
validation (in particular one missing the required `mcc` field) makes the
whole call fail with the `ValidationFailure` kind; no list is returned. -/
theorem claim_C4 :
    (∀ (a : String) (f t now : Int) (w : Nat → HttpResult) (st : Nat)
        (xs : List Json) (x : Json),
      w 0 = .response st (.arr xs) → 200 ≤ st → st ≤ 299 → x ∈ xs →
      (∃ e, validateStatementItem x = .error e) →
      (get_statement a f t now w).2 = .error .validationFailure) ∧
    (∀ o : List (String × Json), jget o "mcc" = none →
      ∃ e, validateStatementItem (.obj o) = .error e) := by
  constructor
  · intro a f t now w st xs x hw h1 h2 hx ⟨e, he⟩
    obtain ⟨e2, hl⟩ := validateItemList_mem_error hx he
    have hk : e2 = .validationFailure := validateItemList_vo xs e2 hl
    have hv : validateStatementItems (.arr xs) = .error .validationFailure := by
      simp only [validateStatementItems, hl, hk]
    simp [get_statement, hw, if_pos (And.intro h1 h2), hv]
  · intro o h
    have hm : reqInt o "mcc" = .error .validationFailure := by
      simp [reqInt, h]
    cases h1 : reqStr o "id" with
    | error e =>
        exact ⟨e, by simp only [validateStatementItem, h1, ebind_error]⟩
    | ok v1 =>
        cases h2 : reqInt o "time" with
        | error e =>
            exact ⟨e, by simp only [validateStatementItem, h1, h2, ebind_ok,
              ebind_error]⟩
        | ok v2 =>
            cases h3 : reqStr o "description" with
            | error e =>
                exact ⟨e, by simp only [validateStatementItem, h1, h2, h3,
                  ebind_ok, ebind_error]⟩
            | ok v3 =>
                exact ⟨.validationFailure, by
                  simp only [validateStatementItem, h1, h2, h3, hm,
                    ebind_ok, ebind_error]⟩

theorem claim_C4_witness :
    (get_statement "0" 0 1 2 (fun _ => .response 200 (.arr [.obj []]))).2 =
      .error .validationFailure :=
  claim_C4.1 "0" 0 1 2 (fun _ => .response 200 (.arr [.obj []])) 200
    [.obj []] (.obj []) rfl (by decide) (by decide) (by simp)
    (claim_C4.2 [] rfl)

theorem transformList_length {items : List (List (String × Json))}
    {out : List (List (String × Json))} (h : transformList items = .ok out) :
    out.length = items.length := by
  induction items generalizing out with
  | nil =>
      simp only [transformList] at h
      cases h
      rfl
  | cons o rest ih =>
      cases ht : transformItem o with
      | error e => rw [transformList, ht, ebind_error] at h; cases h
      | ok o2 =>
          cases hr : transformList rest with
          | error e => rw [transformList, ht, ebind_ok, hr, ebind_error] at h; cases h
          | ok l =>
              rw [transformList, ht, ebind_ok, hr, ebind_ok] at h
              cases h
              simp [ih hr]

theorem transformList_get {items out : List (List (String × Json))}
    (h : transformList items = .ok out) :
    ∀ i (hi : i < items.length) (ho : i < out.length),
      transformItem (items.get ⟨i, hi⟩) = .ok (out.get ⟨i, ho⟩) := by
  induction items generalizing out with
  | nil => intro i hi; cases hi
  | cons o rest ih =>
      cases ht : transformItem o with
      | error e => rw [transformList, ht, ebind_error] at h; cases h
      | ok o2 =>
          cases hr : transformList rest with
          | error e => rw [transformList, ht, ebind_ok, hr, ebind_error] at h; cases h
          | ok l =>
              rw [transformList, ht, ebind_ok, hr, ebind_ok] at h
              cases h
              intro i hi ho
              cases i with
              | zero => simpa using ht
              | succ i2 =>
                  exact ih hr i2 (Nat.lt_of_succ_lt_succ hi)
                    (Nat.lt_of_succ_lt_succ ho)

theorem validateItemList_length {xs : List Json} {items : List StatementItem}
    (h : validateItemList xs = .ok items) : items.length = xs.length := by
  induction xs generalizing items with
  | nil =>
      simp only [validateItemList] at h
      cases h
      rfl
  | cons x rest ih =>
      cases hx : validateStatementItem x with
      | error e => rw [validateItemList, hx, ebind_error] at h; cases h
      | ok it =>
          cases hr : validateItemList rest with
          | error e => rw [validateItemList, hx, ebind_ok, hr, ebind_error] at h; cases h
          | ok l =>
              rw [validateItemList, hx, ebind_ok, hr, ebind_ok] at h
              cases h
              simp [ih hr]

theorem validateItemList_get {xs : List Json} {items : List StatementItem}
    (h : validateItemList xs = .ok items) :
    ∀ i (hi : i < xs.length) (ho : i < items.length),
      validateStatementItem (xs.get ⟨i, hi⟩) = .ok (items.get ⟨i, ho⟩) := by
  induction xs generalizing items with
  | nil => intro i hi; cases hi
  | cons x rest ih =>
      cases hx : validateStatementItem x with
      | error e => rw [validateItemList, hx, ebind_error] at h; cases h
      | ok it =>
          cases hr : validateItemList rest with
          | error e => rw [validateItemList, hx, ebind_ok, hr, ebind_error] at h; cases h
          | ok l =>
              rw [validateItemList, hx, ebind_ok, hr, ebind_ok] at h
              cases h
              intro i hi ho
              cases i with
              | zero => simpa using hx
              | succ i2 =>
                  exact ih hr i2 (Nat.lt_of_succ_lt_succ hi)
                    (Nat.lt_of_succ_lt_succ ho)

theorem get_statement_ok_inv {a : String} {f t now : Int}
    {w : Nat → HttpResult} {out : List (List (String × Json))}
    (h : (get_statement a f t now w).2 = .ok out) :
    ∃ st body items, w 0 = .response st body ∧ 200 ≤ st ∧ st ≤ 299 ∧
      validateStatementItems body = .ok items ∧
      transformList (items.map dumpStatementItem) = .ok out := by
  unfold get_statement at h
  cases hw : w 0 with
  | transportError cause => rw [hw] at h; dsimp only at h; cases h
  | response st body =>
      rw [hw] at h
      dsimp only at h
      by_cases hst : 200 ≤ st ∧ st ≤ 299
      · rw [if_pos hst] at h
        cases hv : validateStatementItems body with
        | error e => rw [hv] at h; cases h
        | ok items =>
            rw [hv] at h
            exact ⟨st, body, items, rfl, hst.1, hst.2, hv, h⟩
      · rw [if_neg hst] at h
        cases h

theorem transformItem_dump_inv {it : StatementItem}
    {o2 : List (String × Json)}
    (h : transformItem (dumpStatementItem it) = .ok o2) :
    ∃ ts f1 f2 f3 f4 f5, pyUtcFormat it.time = .ok ts ∧
      pyDiv100 it.amount = .ok f1 ∧
      pyDiv100 it.operation_amount = .ok f2 ∧
      pyDiv100 it.commission_rate = .ok f3 ∧
      pyDiv100 it.cashback_amount = .ok f4 ∧
      pyDiv100 it.balance = .ok f5 ∧
      o2 = [("time", .str ts), ("description", .str it.description),
            ("mcc", .int it.mcc), ("original_mcc", .int it.original_mcc),
            ("hold", .bool it.hold), ("amount", .float f1.1 f1.2),
            ("operation_amount", .float f2.1 f2.2),
            ("currency_code", .int it.currency_code),
            ("commission_rate", .float f3.1 f3.2),
            ("cashback_amount", .float f4.1 f4.2),
            ("balance", .float f5.1 f5.2),
            ("comment", jsonOfOptStr it.comment),
            ("receipt_id", jsonOfOptStr it.receipt_id),
            ("counter_name", jsonOfOptStr it.counter_name)] := by
  cases hts : pyUtcFormat it.time with
  | error e =>
      simp [transformItem, getIntAt, dumpStatementItem, jget, setKey,
        popRedacted, hts, ebind_ok, ebind_error] at h
  | ok ts =>
  cases h1 : pyDiv100 it.amount with
  | error e =>
      simp [transformItem, getIntAt, dumpStatementItem, jget, setKey,
        popRedacted, hts, h1, ebind_ok, ebind_error] at h
  | ok f1 =>
  cases h2 : pyDiv100 it.operation_amount with
  | error e =>
      simp [transformItem, getIntAt, dumpStatementItem, jget, setKey,
        popRedacted, hts, h1, h2, ebind_ok, ebind_error] at h
  | ok f2 =>
  cases h3 : pyDiv100 it.commission_rate with
  | error e =>
      simp [transformItem, getIntAt, dumpStatementItem, jget, setKey,
        popRedacted, hts, h1, h2, h3, ebind_ok, ebind_error] at h
  | ok f3 =>
  cases h4 : pyDiv100 it.cashback_amount with
  | error e =>
      simp [transformItem, getIntAt, dumpStatementItem, jget, setKey,
        popRedacted, hts, h1, h2, h3, h4, ebind_ok, ebind_error] at h
  | ok f4 =>
  cases h5 : pyDiv100 it.balance with
  | error e =>
      simp [transformItem, getIntAt, dumpStatementItem, jget, setKey,
        popRedacted, hts, h1, h2, h3, h4, h5, ebind_ok, ebind_error] at h
  | ok f5 =>
  refine ⟨ts, f1, f2, f3, f4, f5, rfl, rfl, rfl, rfl, rfl, rfl, ?_⟩
  have hcomp : transformItem (dumpStatementItem it) =
      .ok [("time", .str ts), ("description", .str it.description),
           ("mcc", .int it.mcc), ("original_mcc", .int it.original_mcc),
           ("hold", .bool it.hold), ("amount", .float f1.1 f1.2),
           ("operation_amount", .float f2.1 f2.2),
           ("currency_code", .int it.currency_code),
           ("commission_rate", .float f3.1 f3.2),
           ("cashback_amount", .float f4.1 f4.2),
           ("balance", .float f5.1 f5.2),
           ("comment", jsonOfOptStr it.comment),
           ("receipt_id", jsonOfOptStr it.receipt_id),
           ("counter_name", jsonOfOptStr it.counter_name)] := by
    simp [transformItem, getIntAt, dumpStatementItem, jget, setKey,
      popRedacted, hts, h1, h2, h3, h4, h5, ebind_ok]
  rw [hcomp] at h
  cases h
  rfl

theorem reqStr_ok {o : List (String × Json)} {k : String} {s : String}
    (h : reqStr o k = .ok s) : jget o k = some (.str s) := by
  unfold reqStr at h
  split at h
  · cases h
    assumption
  · cases h

theorem reqInt_ok {o : List (String × Json)} {k : String} {n : Int}
    (h : reqInt o k = .ok n) : jget o k = some (.int n) := by
  unfold reqInt at h
  split at h
  · cases h
    assumption
  · cases h

theorem reqBool_ok {o : List (String × Json)} {k : String} {b : Bool}
    (h : reqBool o k = .ok b) : jget o k = some (.bool b) := by
  unfold reqBool at h
  split at h
  · cases h
    assumption
  · cases h

theorem strList_ok {xs : List Json} {l : List String}
    (h : strList xs = .ok l) : xs = l.map Json.str := by
  induction xs generalizing l with
  | nil =>
      simp only [strList] at h
      cases h
      rfl
  | cons x rest ih =>
      cases x <;> simp only [strList] at h <;> try cases h
      rename_i s
      cases hr : strList rest with
      | error e => rw [hr, ebind_error] at h; cases h
      | ok l2 =>
          rw [hr, ebind_ok] at h
          cases h
          simp [ih hr]

theorem reqStrList_ok {o : List (String × Json)} {k : String}
    {l : List String} (h : reqStrList o k = .ok l) :
    jget o k = some (.arr (l.map Json.str)) := by
  unfold reqStrList at h
  split at h
  · next heq => rw [heq, ← strList_ok h]
  · cases h

theorem optStr_ok {o : List (String × Json)} {k : String} {v : Option String}
    (h : optStr o k = .ok v) :
    (v = none ∧ (jget o k = none ∨ jget o k = some .null)) ∨
    (∃ s, v = some s ∧ jget o k = some (.str s)) := by
  unfold optStr at h
  split at h
  · cases h
    exact Or.inl ⟨rfl, Or.inl (by assumption)⟩
  · cases h
    exact Or.inl ⟨rfl, Or.inr (by assumption)⟩
  · cases h
    exact Or.inr ⟨_, rfl, by assumption⟩
  · cases h

theorem reqStr_congr {o o2 : List (String × Json)} {k : String}
    (h : jget o k = jget o2 k) : reqStr o k = reqStr o2 k := by
  unfold reqStr
  rw [h]

theorem reqInt_congr {o o2 : List (String × Json)} {k : String}
    (h : jget o k = jget o2 k) : reqInt o k = reqInt o2 k := by
  unfold reqInt
  rw [h]

theorem reqBool_congr {o o2 : List (String × Json)} {k : String}
    (h : jget o k = jget o2 k) : reqBool o k = reqBool o2 k := by
  unfold reqBool
  rw [h]

theorem optStr_congr {o o2 : List (String × Json)} {k : String}
    (h : jget o k = jget o2 k) : optStr o k = optStr o2 k := by
  unfold optStr
  rw [h]

theorem optInt_congr {o o2 : List (String × Json)} {k : String}
    (h : jget o k = jget o2 k) : optInt o k = optInt o2 k := by
  unfold optInt
  rw [h]

theorem reqStrList_congr {o o2 : List (String × Json)} {k : String}
    (h : jget o k = jget o2 k) : reqStrList o k = reqStrList o2 k := by
  unfold reqStrList
  rw [h]

theorem validateClientInfo_ok_inv {o : List (String × Json)} {c : ClientInfo}
    (h : validateClientInfo (.obj o) = .ok c) :
    jget o "clientId" = some (.str c.client_id) ∧
    jget o "name" = some (.str c.name) ∧
    jget o "webHookUrl" = some (.str c.webhook_url) ∧
    jget o "permissions" = some (.str c.permissions) ∧
    (∃ xs, jget o "accounts" = some (.arr xs) ∧
      validateAccounts xs = .ok c.accounts) ∧
    ((c.jars = none ∧ (jget o "jars" = none ∨ jget o "jars" = some .null)) ∨
     (∃ xs js, jget o "jars" = some (.arr xs) ∧ validateJars xs = .ok js ∧
       c.jars = some js)) := by
  unfold validateClientInfo at h
  dsimp only at h
  cases h1 : reqStr o "clientId" with
  | error e => rw [h1, ebind_error] at h; cases h
  | ok cid =>
  rw [h1, ebind_ok] at h
  cases h2 : reqStr o "name" with
  | error e => rw [h2, ebind_error] at h; cases h
  | ok nm =>
  rw [h2, ebind_ok] at h
  cases h3 : reqStr o "webHookUrl" with
  | error e => rw [h3, ebind_error] at h; cases h
  | ok wh =>
  rw [h3, ebind_ok] at h
  cases h4 : reqStr o "permissions" with
  | error e => rw [h4, ebind_error] at h; cases h
  | ok pm =>
  rw [h4, ebind_ok] at h
  cases hacc : jget o "accounts" with
  | none => rw [hacc] at h; cases h
  | some av =>
  cases av <;> rw [hacc] at h <;> try cases h
  rename_i axs
  dsimp only at h
  cases h5 : validateAccounts axs with
  | error e => rw [h5, ebind_error] at h; cases h
  | ok accs =>
  rw [h5, ebind_ok] at h
  cases hj : jget o "jars" with
  | none =>
      rw [hj] at h
      dsimp only at h
      rw [ebind_ok] at h
      cases h
      exact ⟨reqStr_ok h1, reqStr_ok h2, reqStr_ok h3, reqStr_ok h4,
        ⟨axs, rfl, h5⟩, Or.inl ⟨rfl, Or.inl rfl⟩⟩
  | some jv =>
      cases jv with
      | null =>
          rw [hj] at h
          dsimp only at h
          rw [ebind_ok] at h
          cases h
          exact ⟨reqStr_ok h1, reqStr_ok h2, reqStr_ok h3, reqStr_ok h4,
            ⟨axs, rfl, h5⟩, Or.inl ⟨rfl, Or.inr rfl⟩⟩
      | arr jxs =>
          rw [hj] at h
          dsimp only at h
          cases h6 : validateJars jxs with
          | error e => rw [h6, ebind_error] at h; cases h
          | ok js =>
              rw [h6, ebind_ok, ebind_ok] at h
              cases h
              exact ⟨reqStr_ok h1, reqStr_ok h2, reqStr_ok h3, reqStr_ok h4,
                ⟨axs, rfl, h5⟩, Or.inr ⟨jxs, js, rfl, h6, rfl⟩⟩
      | bool b => rw [hj] at h; cases h
      | int n => rw [hj] at h; cases h
      | float m k => rw [hj] at h; cases h
      | str s => rw [hj] at h; cases h
      | obj o2 => rw [hj] at h; cases h

theorem get_client_info_ok_inv {w : Nat → HttpResult}
    {out : List (String × Json)} (h : get_client_info w = .ok out) :
    ∃ st body c, w 0 = .response st body ∧ 200 ≤ st ∧ st ≤ 299 ∧
      validateClientInfo body = .ok c ∧ out = dumpClientInfo c := by
  unfold get_client_info at h
  cases hw : w 0 with
  | transportError cause => rw [hw] at h; cases h
  | response st body =>
      rw [hw] at h
      dsimp only at h
      by_cases hst : 200 ≤ st ∧ st ≤ 299
      · rw [if_pos hst] at h
        cases hv : validateClientInfo body with
        | error e => rw [hv] at h; cases h
        | ok c =>
            rw [hv] at h
            cases h
            exact ⟨st, body, c, rfl, hst.1, hst.2, hv, rfl⟩
      · rw [if_neg hst] at h
        cases h

/-- Claim C3: for an upstream array that validates, the returned list has
one element per upstream element in the same order (the i-th output is the
transform of the i-th validated element), and none of the keys `id`,
`invoice_id`, `counter_edrpou`, `counter_iban` occurs in any returned
element. -/
theorem claim_C3 (a : String) (f t now : Int) (w : Nat → HttpResult)
    (st : Nat) (xs : List Json) (items : List StatementItem)
    (out : List (List (String × Json)))
    (hw : w 0 = .response st (.arr xs))
    (hv : validateStatementItems (.arr xs) = .ok items)
    (hres : (get_statement a f t now w).2 = .ok out) :
    out.length = xs.length ∧
    (∀ i (hi : i < items.length) (ho : i < out.length),
      transformItem (dumpStatementItem (items.get ⟨i, hi⟩)) =
        .ok (out.get ⟨i, ho⟩)) ∧
    (∀ o ∈ out, "id" ∉ o.map Prod.fst ∧ "invoice_id" ∉ o.map Prod.fst ∧
      "counter_edrpou" ∉ o.map Prod.fst ∧ "counter_iban" ∉ o.map Prod.fst) := by
  obtain ⟨st2, body2, items2, hw2, hs1, hs2, hv2, htr⟩ := get_statement_ok_inv hres
  rw [hw] at hw2
  cases hw2
  rw [hv] at hv2
  cases hv2
  have hlen1 : out.length = items.length := by
    have := transformList_length htr
    simpa using this
  have hlen2 : items.length = xs.length :=
    validateItemList_length (by simpa [validateStatementItems] using hv)
  refine ⟨hlen1.trans hlen2, ?_, ?_⟩
  · intro i hi ho
    have hg := transformList_get htr i (by simpa using hi) ho
    simpa [List.getElem_map] using hg
  · intro o ho
    obtain ⟨⟨i, hilt⟩, hget⟩ := List.mem_iff_get.mp ho
    have hi2 : i < items.length := by omega
    have hg := transformList_get htr i (by simpa using hi2) hilt
    have hg2 : transformItem (dumpStatementItem (items.get ⟨i, hi2⟩)) =
        .ok (out.get ⟨i, hilt⟩) := by simpa [List.getElem_map] using hg
    obtain ⟨ts, f1, f2, f3, f4, f5, _, _, _, _, _, _, hout⟩ :=
      transformItem_dump_inv hg2
    rw [hget] at hout
    rw [hout]
    refine ⟨?_, ?_, ?_, ?_⟩ <;> simp

/-- Claim C3 witness: a concrete one-element statement exchange. -/
theorem claim_C3_witness :
    ([sampleOut].length = [sampleItemBody].length ∧
    (∀ i (hi : i < [sampleItem].length) (ho : i < [sampleOut].length),
      transformItem (dumpStatementItem ([sampleItem].get ⟨i, hi⟩)) =
        .ok ([sampleOut].get ⟨i, ho⟩)) ∧
    (∀ o ∈ [sampleOut], "id" ∉ o.map Prod.fst ∧
      "invoice_id" ∉ o.map Prod.fst ∧ "counter_edrpou" ∉ o.map Prod.fst ∧
      "counter_iban" ∉ o.map Prod.fst)) :=
  claim_C3 "0" 1 2 3 sampleWorld 200 [sampleItemBody] [sampleItem]
    [sampleOut] rfl rfl rfl

/-- Claim C9: every element of a successfully returned statement list has
exactly the same fixed key sequence, independent of which optional fields
the upstream elements carried. -/
theorem claim_C9 (a : String) (f t now : Int) (w : Nat → HttpResult)
    (out : List (List (String × Json)))
    (hres : (get_statement a f t now w).2 = .ok out) :
    ∀ o ∈ out, o.map Prod.fst = transformedItemKeys := by
  obtain ⟨st, body, items, hw, hs1, hs2, hv, htr⟩ := get_statement_ok_inv hres
  intro o ho
  obtain ⟨⟨i, hilt⟩, hget⟩ := List.mem_iff_get.mp ho
  have hi2 : i < items.length := by
    have := transformList_length htr
    simp at this
    omega
  have hg := transformList_get htr i (by simpa using hi2) hilt
  have hg2 : transformItem (dumpStatementItem (items.get ⟨i, hi2⟩)) =
      .ok (out.get ⟨i, hilt⟩) := by simpa [List.getElem_map] using hg
  obtain ⟨ts, f1, f2, f3, f4, f5, _, _, _, _, _, _, hout⟩ :=
    transformItem_dump_inv hg2
  rw [hget] at hout
  rw [hout]
  simp [transformedItemKeys]

/-- Claim C9 witness: the concrete one-element exchange, instantiated at
its single returned record. -/
theorem claim_C9_witness :
    sampleOut.map Prod.fst = transformedItemKeys :=
  claim_C9 "0" 1 2 3 sampleWorld [sampleOut] rfl sampleOut
    (List.mem_singleton.mpr rfl)

/-- Claim C7 counterexample: a valid client-info response in which the
optional `jars` field is absent upstream.  The returned record contains
the key `jars` with the null sentinel, so the optional field is present
with a sentinel value rather than absent. -/
theorem claim_C7_counterexample :
    ∃ out, get_client_info (fun _ => .response 200 sampleClientBody) =
      .ok out ∧ jget out "jars" = some .null :=
  ⟨_, rfl, rfl⟩

/-- Claim C7 as amended: an optional field that is missing upstream is
present in the returned structure with the null sentinel — `jars` in
`get_client_info`, and (for example) `comment`, `receipt_id`,
`counter_name` in every `get_statement` record — never absent. -/
theorem claim_C7 :
    (∀ (w : Nat → HttpResult) (st : Nat) (o : List (String × Json))
        (out : List (String × Json)),
      w 0 = .response st (.obj o) → jget o "jars" = none →
      get_client_info w = .ok out → jget out "jars" = some .null) ∧
    (∀ (a : String) (f t now : Int) (w : Nat → HttpResult)
        (items : List StatementItem) (out : List (List (String × Json)))
        (st : Nat) (body : Json),
      w 0 = .response st body → validateStatementItems body = .ok items →
      (get_statement a f t now w).2 = .ok out →
      ∀ i (hi : i < items.length) (ho : i < out.length),
        ((items.get ⟨i, hi⟩).comment = none →
          jget (out.get ⟨i, ho⟩) "comment" = some .null) ∧
        ((items.get ⟨i, hi⟩).receipt_id = none →
          jget (out.get ⟨i, ho⟩) "receipt_id" = some .null) ∧
        ((items.get ⟨i, hi⟩).counter_name = none →
          jget (out.get ⟨i, ho⟩) "counter_name" = some .null)) := by
  constructor
  · intro w st o out hw hjars hres
    obtain ⟨st2, body2, c, hw2, hs1, hs2, hv, hout⟩ := get_client_info_ok_inv hres
    rw [hw] at hw2
    cases hw2
    obtain ⟨_, _, _, _, _, hj⟩ := validateClientInfo_ok_inv hv
    have hnone : c.jars = none := by
      cases hj with
      | inl h2 => exact h2.1
      | inr h2 =>
          obtain ⟨xs, js, hx, _, _⟩ := h2
          rw [hjars] at hx
          cases hx
    rw [hout]
    simp [dumpClientInfo, jget, hnone]
  · intro a f t now w items out st body hw hv hres i hi ho
    obtain ⟨st2, body2, items2, hw2, hs1, hs2, hv2, htr⟩ :=
      get_statement_ok_inv hres
    rw [hw] at hw2
    cases hw2
    rw [hv] at hv2
    cases hv2
    have hg := transformList_get htr i (by simpa using hi) ho
    have hg2 : transformItem (dumpStatementItem (items.get ⟨i, hi⟩)) =
        .ok (out.get ⟨i, ho⟩) := by simpa [List.getElem_map] using hg
    obtain ⟨ts, f1, f2, f3, f4, f5, _, _, _, _, _, _, hout⟩ :=
      transformItem_dump_inv hg2
    rw [hout]
    refine ⟨?_, ?_, ?_⟩ <;> intro hn <;>
      simp only [List.get_eq_getElem] at hn <;> simp [jget, jsonOfOptStr, hn]

/-- Claim C7 witness: the concrete one-element statement exchange, whose
upstream element carries none of the optional fields. -/
theorem claim_C7_witness :
    ∀ i (hi : i < [sampleItem].length) (ho : i < [sampleOut].length),
      (([sampleItem].get ⟨i, hi⟩).comment = none →
        jget ([sampleOut].get ⟨i, ho⟩) "comment" = some .null) ∧
      (([sampleItem].get ⟨i, hi⟩).receipt_id = none →
        jget ([sampleOut].get ⟨i, ho⟩) "receipt_id" = some .null) ∧
      (([sampleItem].get ⟨i, hi⟩).counter_name = none →
        jget ([sampleOut].get ⟨i, ho⟩) "counter_name" = some .null) :=
  claim_C7.2 "0" 1 2 3 sampleWorld [sampleItem] [sampleOut] 200
    (.arr [sampleItemBody]) rfl rfl rfl

/-- Claim C10: validation of each record type reads only the declared wire
keys — two objects that agree on the declared keys validate identically,
so unknown extra keys can never cause a failure or change the result — and
the key sequences of the dumped records are fixed canonical lists in which
no extra key can ever appear. -/
theorem claim_C10 :
    (∀ o o2 : List (String × Json),
      (∀ k, k ∈ clientInfoWireKeys → jget o k = jget o2 k) →
      validateClientInfo (.obj o) = validateClientInfo (.obj o2)) ∧
    (∀ o o2 : List (String × Json),
      (∀ k, k ∈ accountWireKeys → jget o k = jget o2 k) →
      validateAccount (.obj o) = validateAccount (.obj o2)) ∧
    (∀ o o2 : List (String × Json),
      (∀ k, k ∈ jarWireKeys → jget o k = jget o2 k) →
      validateJar (.obj o) = validateJar (.obj o2)) ∧
    (∀ o o2 : List (String × Json),
      (∀ k, k ∈ statementItemWireKeys → jget o k = jget o2 k) →
      validateStatementItem (.obj o) = validateStatementItem (.obj o2)) ∧
    (∀ c : ClientInfo, (dumpClientInfo c).map Prod.fst = dumpedClientInfoKeys) ∧
    (∀ it : StatementItem, (dumpStatementItem it).map Prod.fst = dumpedItemKeys) := by
  refine ⟨?_, ?_, ?_, ?_, ?_, ?_⟩
  · intro o o2 h
    simp only [validateClientInfo]
    rw [reqStr_congr (h "clientId" (by simp [clientInfoWireKeys])),
      reqStr_congr (h "name" (by simp [clientInfoWireKeys])),
      reqStr_congr (h "webHookUrl" (by simp [clientInfoWireKeys])),
      reqStr_congr (h "permissions" (by simp [clientInfoWireKeys])),
      h "accounts" (by simp [clientInfoWireKeys]),
      h "jars" (by simp [clientInfoWireKeys])]
  · intro o o2 h
    simp only [validateAccount]
    rw [reqStr_congr (h "id" (by simp [accountWireKeys])),
      reqStr_congr (h "sendId" (by simp [accountWireKeys])),
      reqInt_congr (h "balance" (by simp [accountWireKeys])),
      reqInt_congr (h "creditLimit" (by simp [accountWireKeys])),
      reqStr_congr (h "type" (by simp [accountWireKeys])),
      reqInt_congr (h "currencyCode" (by simp [accountWireKeys])),
      reqStr_congr (h "cashbackType" (by simp [accountWireKeys])),
      reqStrList_congr (h "maskedPan" (by simp [accountWireKeys])),
      reqStr_congr (h "iban" (by simp [accountWireKeys]))]
  · intro o o2 h
    simp only [validateJar]
    rw [reqStr_congr (h "id" (by simp [jarWireKeys])),
      reqStr_congr (h "sendId" (by simp [jarWireKeys])),
      reqStr_congr (h "title" (by simp [jarWireKeys])),
      optStr_congr (h "description" (by simp [jarWireKeys])),
      reqInt_congr (h "currencyCode" (by simp [jarWireKeys])),
      reqInt_congr (h "balance" (by simp [jarWireKeys])),
      optInt_congr (h "goal" (by simp [jarWireKeys]))]
  · intro o o2 h
    simp only [validateStatementItem]
    rw [reqStr_congr (h "id" (by simp [statementItemWireKeys])),
      reqInt_congr (h "time" (by simp [statementItemWireKeys])),
      reqStr_congr (h "description" (by simp [statementItemWireKeys])),
      reqInt_congr (h "mcc" (by simp [statementItemWireKeys])),
      reqInt_congr (h "originalMcc" (by simp [statementItemWireKeys])),
      reqBool_congr (h "hold" (by simp [statementItemWireKeys])),
      reqInt_congr (h "amount" (by simp [statementItemWireKeys])),
      reqInt_congr (h "operationAmount" (by simp [statementItemWireKeys])),
      reqInt_congr (h "currencyCode" (by simp [statementItemWireKeys])),
      reqInt_congr (h "commissionRate" (by simp [statementItemWireKeys])),
      reqInt_congr (h "cashbackAmount" (by simp [statementItemWireKeys])),
      reqInt_congr (h "balance" (by simp [statementItemWireKeys])),
      optStr_congr (h "comment" (by simp [statementItemWireKeys])),
      optStr_congr (h "receiptId" (by simp [statementItemWireKeys])),
      optStr_congr (h "invoiceId" (by simp [statementItemWireKeys])),
      optStr_congr (h "counterEdrpou" (by simp [statementItemWireKeys])),
      optStr_congr (h "counterIban" (by simp [statementItemWireKeys])),
      optStr_congr (h "counterName" (by simp [statementItemWireKeys]))]
  · intro c
    simp [dumpClientInfo, dumpedClientInfoKeys]
  · intro it
    simp [dumpStatementItem, dumpedItemKeys]

theorem validateAccounts_length {xs : List Json} {accs : List Account}
    (h : validateAccounts xs = .ok accs) : accs.length = xs.length := by
  induction xs generalizing accs with
  | nil =>
      simp only [validateAccounts] at h
      cases h
      rfl
  | cons x rest ih =>
      cases hx : validateAccount x with
      | error e => rw [validateAccounts, hx, ebind_error] at h; cases h
      | ok a =>
          cases hr : validateAccounts rest with
          | error e => rw [validateAccounts, hx, ebind_ok, hr, ebind_error] at h; cases h
          | ok l =>
              rw [validateAccounts, hx, ebind_ok, hr, ebind_ok] at h
              cases h
              simp [ih hr]

theorem validateAccounts_get {xs : List Json} {accs : List Account}
    (h : validateAccounts xs = .ok accs) :
    ∀ i (hi : i < xs.length) (ho : i < accs.length),
      validateAccount (xs.get ⟨i, hi⟩) = .ok (accs.get ⟨i, ho⟩) := by
  induction xs generalizing accs with
  | nil => intro i hi; cases hi
  | cons x rest ih =>
      cases hx : validateAccount x with
      | error e => rw [validateAccounts, hx, ebind_error] at h; cases h
      | ok a =>
          cases hr : validateAccounts rest with
          | error e => rw [validateAccounts, hx, ebind_ok, hr, ebind_error] at h; cases h
          | ok l =>
              rw [validateAccounts, hx, ebind_ok, hr, ebind_ok] at h
              cases h
              intro i hi ho
              cases i with
              | zero => simpa using hx
              | succ i2 =>
                  exact ih hr i2 (Nat.lt_of_succ_lt_succ hi)
                    (Nat.lt_of_succ_lt_succ ho)

theorem validateAccount_ok_agrees {j : Json} {a : Account}
    (h : validateAccount j = .ok a) : accountAgrees j a := by
  cases j <;> simp only [validateAccount] at h <;> try cases h
  rename_i ao
  refine ⟨ao, rfl, ?_⟩
  cases h1 : reqStr ao "id" with
  | error e => rw [h1, ebind_error] at h; cases h
  | ok v1 =>
  rw [h1, ebind_ok] at h
  cases h2 : reqStr ao "sendId" with
  | error e => rw [h2, ebind_error] at h; cases h
  | ok v2 =>
  rw [h2, ebind_ok] at h
  cases h3 : reqInt ao "balance" with
  | error e => rw [h3, ebind_error] at h; cases h
  | ok v3 =>
  rw [h3, ebind_ok] at h
  cases h4 : reqInt ao "creditLimit" with
  | error e => rw [h4, ebind_error] at h; cases h
  | ok v4 =>
  rw [h4, ebind_ok] at h
  cases h5 : reqStr ao "type" with
  | error e => rw [h5, ebind_error] at h; cases h
  | ok v5 =>
  rw [h5, ebind_ok] at h
  cases h6 : reqInt ao "currencyCode" with
  | error e => rw [h6, ebind_error] at h; cases h
  | ok v6 =>
  rw [h6, ebind_ok] at h
  cases h7 : reqStr ao "cashbackType" with
  | error e => rw [h7, ebind_error] at h; cases h
  | ok v7 =>
  rw [h7, ebind_ok] at h
  cases h8 : reqStrList ao "maskedPan" with
  | error e => rw [h8, ebind_error] at h; cases h
  | ok v8 =>
  rw [h8, ebind_ok] at h
  cases h9 : reqStr ao "iban" with
  | error e => rw [h9, ebind_error] at h; cases h
  | ok v9 =>
  rw [h9, ebind_ok] at h
  cases h
  exact ⟨reqStr_ok h1, reqStr_ok h2, reqInt_ok h3, reqInt_ok h4,
    reqStr_ok h5, reqInt_ok h6, reqStr_ok h7, reqStrList_ok h8,
    reqStr_ok h9⟩

/-- Claim C8: on a valid client-info response, every wire-aliased field is
reachable in the returned record at its canonical snake-case name, the
wire values are carried over unchanged (no data loss), and the integer
balances receive no unit conversion. -/
theorem claim_C8 (w : Nat → HttpResult) (st : Nat)
    (o : List (String × Json)) (c : ClientInfo) (out : List (String × Json))
    (hw : w 0 = .response st (.obj o))
    (hv : validateClientInfo (.obj o) = .ok c)
    (hres : get_client_info w = .ok out) :
    out = dumpClientInfo c ∧
    jget o "clientId" = some (.str c.client_id) ∧
    jget out "client_id" = some (.str c.client_id) ∧
    jget o "webHookUrl" = some (.str c.webhook_url) ∧
    jget out "webhook_url" = some (.str c.webhook_url) ∧
    jget o "name" = some (.str c.name) ∧
    jget out "name" = some (.str c.name) ∧
    jget o "permissions" = some (.str c.permissions) ∧
    jget out "permissions" = some (.str c.permissions) ∧
    jget out "accounts" = some (.arr (c.accounts.map dumpAccount)) ∧
    (∃ axs, jget o "accounts" = some (.arr axs) ∧
      axs.length = c.accounts.length ∧
      ∀ i (h1 : i < axs.length) (h2 : i < c.accounts.length),
        accountAgrees (axs.get ⟨i, h1⟩) (c.accounts.get ⟨i, h2⟩)) ∧
    (∀ acc ∈ c.accounts, ∃ d, dumpAccount acc = .obj d ∧
      jget d "id" = some (.str acc.id) ∧
      jget d "send_id" = some (.str acc.send_id) ∧
      jget d "balance" = some (.int acc.balance) ∧
      jget d "credit_limit" = some (.int acc.credit_limit) ∧
      jget d "type" = some (.str acc.type) ∧
      jget d "currency_code" = some (.int acc.currency_code) ∧
      jget d "cashback_type" = some (.str acc.cashback_type) ∧
      jget d "masked_pan" = some (.arr (acc.masked_pan.map Json.str)) ∧
      jget d "iban" = some (.str acc.iban)) := by
  obtain ⟨st2, body2, c2, hw2, hs1, hs2, hv2, hout⟩ := get_client_info_ok_inv hres
  rw [hw] at hw2
  cases hw2
  rw [hv] at hv2
  cases hv2
  obtain ⟨h1, h2, h3, h4, ⟨axs, hacc, haccv⟩, hj⟩ := validateClientInfo_ok_inv hv
  refine ⟨hout, h1, ?_, h3, ?_, h2, ?_, h4, ?_, ?_,
    ⟨axs, hacc, (validateAccounts_length haccv).symm, ?_⟩, ?_⟩
  · rw [hout]; simp [dumpClientInfo, jget]
  · rw [hout]; simp [dumpClientInfo, jget]
  · rw [hout]; simp [dumpClientInfo, jget]
  · rw [hout]; simp [dumpClientInfo, jget]
  · rw [hout]; simp [dumpClientInfo, jget]
  · intro i hi1 hi2
    exact validateAccount_ok_agrees (validateAccounts_get haccv i hi1 hi2)
  · intro acc hmem
    exact ⟨_, rfl, by simp [dumpAccount, jget]⟩

/-- Claim C8 witness: the concrete one-account client-info exchange. -/
theorem claim_C8_witness :
    dumpClientInfo sampleClient = dumpClientInfo sampleClient ∧
    jget sampleClientFields "clientId" = some (.str sampleClient.client_id) ∧
    jget (dumpClientInfo sampleClient) "client_id" =
      some (.str sampleClient.client_id) ∧
    jget sampleClientFields "webHookUrl" =
      some (.str sampleClient.webhook_url) ∧
    jget (dumpClientInfo sampleClient) "webhook_url" =
      some (.str sampleClient.webhook_url) ∧
    jget sampleClientFields "name" = some (.str sampleClient.name) ∧
    jget (dumpClientInfo sampleClient) "name" =
      some (.str sampleClient.name) ∧
    jget sampleClientFields "permissions" =
      some (.str sampleClient.permissions) ∧
    jget (dumpClientInfo sampleClient) "permissions" =
      some (.str sampleClient.permissions) ∧
    jget (dumpClientInfo sampleClient) "accounts" =
      some (.arr (sampleClient.accounts.map dumpAccount)) ∧
    (∃ axs, jget sampleClientFields "accounts" = some (.arr axs) ∧
      axs.length = sampleClient.accounts.length ∧
      ∀ i (h1 : i < axs.length) (h2 : i < sampleClient.accounts.length),
        accountAgrees (axs.get ⟨i, h1⟩)
          (sampleClient.accounts.get ⟨i, h2⟩)) ∧
    (∀ acc ∈ sampleClient.accounts, ∃ d, dumpAccount acc = .obj d ∧
      jget d "id" = some (.str acc.id) ∧
      jget d "send_id" = some (.str acc.send_id) ∧
      jget d "balance" = some (.int acc.balance) ∧
      jget d "credit_limit" = some (.int acc.credit_limit) ∧
      jget d "type" = some (.str acc.type) ∧
      jget d "currency_code" = some (.int acc.currency_code) ∧
      jget d "cashback_type" = some (.str acc.cashback_type) ∧
      jget d "masked_pan" = some (.arr (acc.masked_pan.map Json.str)) ∧
      jget d "iban" = some (.str acc.iban)) :=
  claim_C8 (fun _ => .response 200 (.obj sampleClientFields)) 200
    sampleClientFields sampleClient (dumpClientInfo sampleClient)
    rfl rfl rfl

/-- Claim C10 witness: an object carrying an undeclared extra key `zzz`
validates exactly like the same object without it. -/
theorem claim_C10_witness :
    validateStatementItem (.obj (("zzz", .str "x") :: sampleItemFields)) =
      validateStatementItem (.obj sampleItemFields) :=
  claim_C10.2.2.2.1 (("zzz", .str "x") :: sampleItemFields)
    sampleItemFields (by intro k hk; fin_cases hk <;> rfl)

theorem log2fuel_spec :
    ∀ fuel n, 1 ≤ n → n ≤ fuel →
      2 ^ log2fuel fuel n ≤ n ∧ n < 2 ^ (log2fuel fuel n + 1) := by
  intro fuel
  induction fuel with
  | zero => intro n h1 h2; omega
  | succ fuel ih =>
      intro n h1 h2
      by_cases h : 2 ≤ n
      · have hrec := ih (n / 2) (by omega) (by omega)
        simp only [log2fuel, if_pos h]
        rw [pow_succ, pow_succ]
        constructor
        · have := hrec.1
          omega
        · have := hrec.2
          rw [pow_succ] at this
          omega
      · simp only [log2fuel, if_neg h]
        omega

theorem natLog2_spec (n : Nat) (h : 1 ≤ n) :
    2 ^ natLog2 n ≤ n ∧ n < 2 ^ (natLog2 n + 1) :=
  log2fuel_spec n n h le_rfl

theorem pow2Le100_iff (n : Nat) (e : Int) :
    pow2Le100 n e = true ↔ (2 : ℚ) ^ e ≤ (n : ℚ) / 100 := by
  unfold pow2Le100
  by_cases he : 0 ≤ e
  · obtain ⟨k, rfl⟩ : ∃ k : ℕ, e = (k : ℤ) := ⟨e.toNat, by omega⟩
    rw [if_pos he, decide_eq_true_iff, Int.toNat_natCast, zpow_natCast,
      le_div_iff₀ (by norm_num : (0 : ℚ) < 100),
      show (2 : ℚ) ^ k * 100 = ((100 * 2 ^ k : ℕ) : ℚ) by push_cast; ring,
      Nat.cast_le]
  · obtain ⟨k, rfl⟩ : ∃ k : ℕ, e = -(k : ℤ) := ⟨(-e).toNat, by omega⟩
    rw [if_neg he, decide_eq_true_iff, neg_neg, Int.toNat_natCast,
      zpow_neg, zpow_natCast, inv_eq_one_div,
      div_le_div_iff₀ (by positivity) (by norm_num : (0 : ℚ) < 100), one_mul,
      show (n : ℚ) * 2 ^ k = ((n * 2 ^ k : ℕ) : ℚ) by push_cast; ring,
      show (100 : ℚ) = ((100 : ℕ) : ℚ) by norm_num, Nat.cast_le]

theorem floatExp_spec (n : Nat) (h : 1 ≤ n) :
    (2 : ℚ) ^ floatExp n ≤ (n : ℚ) / 100 ∧
      (n : ℚ) / 100 < (2 : ℚ) ^ (floatExp n + 1) := by
  obtain ⟨hl, hr⟩ := natLog2_spec n h
  have hn0 : (0 : ℚ) < (n : ℚ) := by exact_mod_cast h
  have hlq : ((2 : ℚ)) ^ (natLog2 n) ≤ (n : ℚ) := by exact_mod_cast hl
  have hrq : (n : ℚ) < (2 : ℚ) ^ (natLog2 n + 1) := by exact_mod_cast hr
  unfold floatExp
  by_cases hp : pow2Le100 n ((natLog2 n : ℤ) - 6) = true
  · rw [if_pos hp]
    refine ⟨(pow2Le100_iff n _).mp hp, ?_⟩
    have key : (2 : ℚ) ^ ((natLog2 n : ℤ) - 6 + 1) =
        (2 : ℚ) ^ (natLog2 n + 1) / 64 := by
      rw [show (natLog2 n : ℤ) - 6 + 1 = ((natLog2 n + 1 : ℕ) : ℤ) - 6 by
        push_cast; ring]
      rw [zpow_sub₀ (by norm_num : (2 : ℚ) ≠ 0), zpow_natCast]
      norm_num
    rw [key]
    calc (n : ℚ) / 100 ≤ (n : ℚ) / 64 :=
          div_le_div_of_nonneg_left (le_of_lt hn0) (by norm_num) (by norm_num)
      _ < (2 : ℚ) ^ (natLog2 n + 1) / 64 :=
          (div_lt_div_iff_of_pos_right (by norm_num : (0:ℚ) < 64)).mpr hrq
  · rw [if_neg hp]
    constructor
    · have key : (2 : ℚ) ^ ((natLog2 n : ℤ) - 6 - 1) =
          (2 : ℚ) ^ (natLog2 n) / 128 := by
        rw [show (natLog2 n : ℤ) - 6 - 1 = ((natLog2 n : ℕ) : ℤ) - 7 by ring]
        rw [zpow_sub₀ (by norm_num : (2 : ℚ) ≠ 0), zpow_natCast]
        norm_num
      rw [key]
      calc (2 : ℚ) ^ (natLog2 n) / 128 ≤ (n : ℚ) / 128 :=
            (div_le_div_iff_of_pos_right (by norm_num : (0:ℚ) < 128)).mpr hlq
        _ ≤ (n : ℚ) / 100 :=
            div_le_div_of_nonneg_left (le_of_lt hn0) (by norm_num) (by norm_num)
    · rw [show (natLog2 n : ℤ) - 6 - 1 + 1 = (natLog2 n : ℤ) - 6 by ring]
      have := (pow2Le100_iff n ((natLog2 n : ℤ) - 6)).not.mp  (by simpa using hp)
      exact lt_of_not_le this

theorem round_half (num den : Nat) (hden : 0 < den) :
    |((roundAux num den : ℕ) : ℚ) - (num : ℚ) / den| ≤ 1 / 2 ∧
    num / den ≤ roundAux num den ∧ roundAux num den ≤ num / den + 1 := by
  have hr : num % den < den := Nat.mod_lt _ hden
  have hid : den * (num / den) + num % den = num := Nat.div_add_mod num den
  have hden2 : (0 : ℚ) < (den : ℚ) := by exact_mod_cast hden
  have hnum : (num : ℚ) / den = ((num / den : ℕ) : ℚ) + ((num % den : ℕ) : ℚ) / den := by
    have h2 : (num : ℚ) = (den : ℚ) * ((num / den : ℕ) : ℚ) + ((num % den : ℕ) : ℚ) := by
      exact_mod_cast hid.symm
    rw [h2, add_div, mul_comm, mul_div_assoc, div_self (ne_of_gt hden2), mul_one]
  refine ⟨?_, ?_, ?_⟩
  · unfold roundAux
    split_ifs with hc
    · have hd2 : (den : ℚ) ≤ 2 * ((num % den : ℕ) : ℚ) := by
        have h3 : den ≤ 2 * (num % den) := by rcases hc with h | h <;> omega
        exact_mod_cast h3
      rw [hnum]
      push_cast
      rw [show ((num / den : ℕ) : ℚ) + 1 -
          (((num / den : ℕ) : ℚ) + ((num % den : ℕ) : ℚ) / den) =
          1 - ((num % den : ℕ) : ℚ) / den by ring]
      have hhalf : (1 : ℚ) / 2 ≤ ((num % den : ℕ) : ℚ) / den := by
        rw [div_le_div_iff₀ (by norm_num : (0 : ℚ) < 2) hden2]
        linarith
      rw [abs_of_nonneg]
      · linarith
      · have h4 : ((num % den : ℕ) : ℚ) / den ≤ 1 := by
          rw [div_le_one hden2]
          exact_mod_cast le_of_lt hr
        linarith
    · have hd2 : 2 * ((num % den : ℕ) : ℚ) ≤ (den : ℚ) := by
        have h3 := not_or.mp hc
        have h4 : 2 * (num % den) ≤ den := by omega
        exact_mod_cast h4
      rw [hnum]
      rw [show ((num / den : ℕ) : ℚ) -
          (((num / den : ℕ) : ℚ) + ((num % den : ℕ) : ℚ) / den) =
          -(((num % den : ℕ) : ℚ) / den) by ring]
      rw [abs_neg, abs_of_nonneg (by positivity)]
      rw [div_le_div_iff₀ hden2 (by norm_num : (0 : ℚ) < 2)]
      linarith
  · unfold roundAux
    split_ifs <;> omega
  · unfold roundAux
    split_ifs <;> omega

theorem numden_ratio (n : Nat) (e : Int) :
    ((n * 2 ^ (52 - e).toNat : ℕ) : ℚ) /
      ((100 * 2 ^ (e - 52).toNat : ℕ) : ℚ) =
      (n : ℚ) / 100 * (2 : ℚ) ^ ((52 : ℤ) - e) := by
  by_cases hs : e ≤ 52
  · obtain ⟨k, hk⟩ : ∃ k : ℕ, (52 : ℤ) - e = (k : ℤ) := ⟨(52 - e).toNat, by omega⟩
    rw [show ((52 : ℤ) - e).toNat = k by omega, show (e - 52).toNat = 0 by omega,
      hk, zpow_natCast]
    push_cast
    ring
  · obtain ⟨k, hk⟩ : ∃ k : ℕ, e - 52 = (k : ℤ) := ⟨(e - 52).toNat, by omega⟩
    rw [show ((52 : ℤ) - e).toNat = 0 by omega, show (e - 52).toNat = k by omega,
      show (52 : ℤ) - e = -(k : ℤ) by omega, zpow_neg, zpow_natCast]
    push_cast
    have h2k : ((2 : ℚ) ^ k) ≠ 0 := by positivity
    field_simp

theorem roundMantissa_spec (n : Nat) (e : Int)
    (hlow : (2 : ℚ) ^ e ≤ (n : ℚ) / 100)
    (hhigh : (n : ℚ) / 100 < (2 : ℚ) ^ (e + 1)) :
    |((roundMantissa n e : ℕ) : ℚ) * (2 : ℚ) ^ (e - 52) - (n : ℚ) / 100| ≤
      (2 : ℚ) ^ (e - 53) ∧
    2 ^ 52 ≤ roundMantissa n e ∧ roundMantissa n e ≤ 2 ^ 53 := by
  have hden : 0 < 100 * 2 ^ (e - 52).toNat := by positivity
  have hden2 : (0 : ℚ) < ((100 * 2 ^ (e - 52).toNat : ℕ) : ℚ) := by
    exact_mod_cast hden
  obtain ⟨hhalf, hql, hqh⟩ :=
    round_half (n * 2 ^ (52 - e).toNat) (100 * 2 ^ (e - 52).toNat) hden
  have hratio := numden_ratio n e
  have hp52 : (0 : ℚ) < (2 : ℚ) ^ ((52 : ℤ) - e) := by positivity
  have hpe : (0 : ℚ) < (2 : ℚ) ^ (e - 52) := by positivity
  have hcancel : (2 : ℚ) ^ ((52 : ℤ) - e) * (2 : ℚ) ^ (e - 52) = 1 := by
    rw [← zpow_add₀ (by norm_num : (2 : ℚ) ≠ 0)]
    norm_num
  have hn100 : (n : ℚ) / 100 =
      ((n * 2 ^ (52 - e).toNat : ℕ) : ℚ) /
        ((100 * 2 ^ (e - 52).toNat : ℕ) : ℚ) * (2 : ℚ) ^ (e - 52) := by
    rw [hratio, mul_assoc, hcancel, mul_one]
  have h52n : (((2 : ℕ) ^ (52 : ℕ) : ℕ) : ℚ) = (2 : ℚ) ^ ((52 : ℤ)) := by
    push_cast
    norm_num
  have h53n : (((2 : ℕ) ^ (53 : ℕ) : ℕ) : ℚ) = (2 : ℚ) ^ ((53 : ℤ)) := by
    push_cast
    norm_num
  have hlow2 : (((2 : ℕ) ^ (52 : ℕ) : ℕ) : ℚ) ≤
      ((n * 2 ^ (52 - e).toNat : ℕ) : ℚ) /
        ((100 * 2 ^ (e - 52).toNat : ℕ) : ℚ) := by
    rw [h52n, hratio]
    calc (2 : ℚ) ^ ((52 : ℤ)) = (2 : ℚ) ^ e * (2 : ℚ) ^ ((52 : ℤ) - e) := by
          rw [← zpow_add₀ (by norm_num : (2 : ℚ) ≠ 0)]
          ring_nf
      _ ≤ (n : ℚ) / 100 * (2 : ℚ) ^ ((52 : ℤ) - e) :=
          mul_le_mul_of_nonneg_right hlow (le_of_lt hp52)
  have hhigh2 : ((n * 2 ^ (52 - e).toNat : ℕ) : ℚ) /
        ((100 * 2 ^ (e - 52).toNat : ℕ) : ℚ) <
      (((2 : ℕ) ^ (53 : ℕ) : ℕ) : ℚ) := by
    rw [h53n, hratio]
    calc (n : ℚ) / 100 * (2 : ℚ) ^ ((52 : ℤ) - e) <
          (2 : ℚ) ^ (e + 1) * (2 : ℚ) ^ ((52 : ℤ) - e) :=
          mul_lt_mul_of_pos_right hhigh hp52
      _ = (2 : ℚ) ^ ((53 : ℤ)) := by
          rw [← zpow_add₀ (by norm_num : (2 : ℚ) ≠ 0)]
          ring_nf
  have hq_lo : 2 ^ 52 ≤ n * 2 ^ (52 - e).toNat / (100 * 2 ^ (e - 52).toNat) := by
    rw [Nat.le_div_iff_mul_le hden]
    exact_mod_cast (le_div_iff₀ hden2).mp hlow2
  have hq_hi : n * 2 ^ (52 - e).toNat / (100 * 2 ^ (e - 52).toNat) < 2 ^ 53 := by
    rw [Nat.div_lt_iff_lt_mul hden]
    exact_mod_cast (div_lt_iff₀ hden2).mp hhigh2
  refine ⟨?_, by unfold roundMantissa; omega, by unfold roundMantissa; omega⟩
  have habs : ((roundMantissa n e : ℕ) : ℚ) * (2 : ℚ) ^ (e - 52) - (n : ℚ) / 100 =
      (((roundMantissa n e : ℕ) : ℚ) -
        ((n * 2 ^ (52 - e).toNat : ℕ) : ℚ) /
          ((100 * 2 ^ (e - 52).toNat : ℕ) : ℚ)) * (2 : ℚ) ^ (e - 52) := by
    rw [hn100]
    ring
  rw [habs, abs_mul, abs_of_pos hpe]
  calc |((roundMantissa n e : ℕ) : ℚ) -
        ((n * 2 ^ (52 - e).toNat : ℕ) : ℚ) /
          ((100 * 2 ^ (e - 52).toNat : ℕ) : ℚ)| * (2 : ℚ) ^ (e - 52) ≤
        1 / 2 * (2 : ℚ) ^ (e - 52) :=
        mul_le_mul_of_nonneg_right hhalf (le_of_lt hpe)
    _ = (2 : ℚ) ^ (e - 53) := by
        rw [show e - 53 = -1 + (e - 52) by ring,
          zpow_add₀ (by norm_num : (2 : ℚ) ≠ 0)]
        norm_num

theorem pyDiv100_spec (a : Int) (f : Int × Int) (h : pyDiv100 a = .ok f) :
    |floatVal f.1 f.2 - (a : ℚ) / 100| ≤ |(a : ℚ) / 100| / 2 ^ 53 ∧
    (0 < a → 0 < floatVal f.1 f.2) ∧ (a < 0 → floatVal f.1 f.2 < 0) ∧
    (a = 0 → floatVal f.1 f.2 = 0) := by
  by_cases ha : a = 0
  · subst ha
    rw [pyDiv100, if_pos rfl] at h
    cases h
    norm_num [floatVal]
  · rw [pyDiv100, if_neg ha] at h
    dsimp only at h
    have hn1 : 1 ≤ a.natAbs := Int.natAbs_pos.mpr ha
    obtain ⟨hlow, hhigh⟩ := floatExp_spec a.natAbs hn1
    obtain ⟨hb, hm_lo, hm_hi⟩ :=
      roundMantissa_spec a.natAbs (floatExp a.natAbs) hlow hhigh
    have hm0 : 0 < roundMantissa a.natAbs (floatExp a.natAbs) :=
      lt_of_lt_of_le (by positivity) hm_lo
    have hmq : (0 : ℚ) < ((roundMantissa a.natAbs (floatExp a.natAbs) : ℕ) : ℚ) := by
      exact_mod_cast hm0
    have hpe : (0 : ℚ) < (2 : ℚ) ^ (floatExp a.natAbs - 52) := by positivity
    have hna : ((a.natAbs : ℕ) : ℚ) = |(a : ℚ)| := by
      rw [Int.cast_natAbs]
      push_cast
      ring
    have habs : |(a : ℚ) / 100| = ((a.natAbs : ℕ) : ℚ) / 100 := by
      rw [abs_div, show |(100 : ℚ)| = 100 by norm_num, hna]
    have herr : (2 : ℚ) ^ (floatExp a.natAbs - 53) ≤ |(a : ℚ) / 100| / 2 ^ 53 := by
      rw [habs, show floatExp a.natAbs - 53 = floatExp a.natAbs + -53 by ring,
        zpow_add₀ (by norm_num : (2 : ℚ) ≠ 0)]
      have h53 : (2 : ℚ) ^ (-53 : ℤ) = ((2 : ℚ) ^ (53 : ℕ))⁻¹ := by
        rw [zpow_neg]
        norm_num
      rw [h53, div_eq_mul_inv]
      exact mul_le_mul_of_nonneg_right hlow (by positivity)
    by_cases hov : 52 ≤ floatExp a.natAbs ∧
        2 ^ 1024 ≤ roundMantissa a.natAbs (floatExp a.natAbs) *
          2 ^ (floatExp a.natAbs - 52).toNat
    · rw [if_pos hov] at h
      cases h
    rw [if_neg hov] at h
    by_cases hneg : a < 0
    · rw [if_pos hneg] at h
      cases h
      dsimp only
      have hcast : (a : ℚ) = -((a.natAbs : ℕ) : ℚ) := by
        rw [hna, abs_of_neg (show (a : ℚ) < 0 from by exact_mod_cast hneg)]
        ring
      have hval : floatVal (-(roundMantissa a.natAbs (floatExp a.natAbs) : ℤ))
          (floatExp a.natAbs - 52) =
          -(((roundMantissa a.natAbs (floatExp a.natAbs) : ℕ) : ℚ) *
            (2 : ℚ) ^ (floatExp a.natAbs - 52)) := by
        rw [floatVal]
        push_cast
        ring
      refine ⟨?_, fun hq => absurd hq (by omega), fun _ => ?_,
        fun h0 => absurd h0 ha⟩
      · rw [hval]
        rw [show -(((roundMantissa a.natAbs (floatExp a.natAbs) : ℕ) : ℚ) *
            (2 : ℚ) ^ (floatExp a.natAbs - 52)) - (a : ℚ) / 100 =
            -((((roundMantissa a.natAbs (floatExp a.natAbs) : ℕ) : ℚ) *
              (2 : ℚ) ^ (floatExp a.natAbs - 52)) -
              ((a.natAbs : ℕ) : ℚ) / 100) by rw [hcast]; ring, abs_neg]
        exact le_trans hb herr
      · rw [hval]
        have hx : (0 : ℚ) <
            ((roundMantissa a.natAbs (floatExp a.natAbs) : ℕ) : ℚ) *
              (2 : ℚ) ^ (floatExp a.natAbs - 52) := by positivity
        linarith
    · rw [if_neg hneg] at h
      cases h
      dsimp only
      have hcast : (a : ℚ) = ((a.natAbs : ℕ) : ℚ) := by
        rw [hna, abs_of_nonneg (show (0 : ℚ) ≤ (a : ℚ) from by
          exact_mod_cast (by omega : (0 : ℤ) ≤ a))]
      have hval : floatVal ((roundMantissa a.natAbs (floatExp a.natAbs) : ℤ))
          (floatExp a.natAbs - 52) =
          ((roundMantissa a.natAbs (floatExp a.natAbs) : ℕ) : ℚ) *
            (2 : ℚ) ^ (floatExp a.natAbs - 52) := by
        rw [floatVal]
        push_cast
        ring
      refine ⟨?_, fun _ => ?_, fun hq => absurd hq hneg,
        fun h0 => absurd h0 ha⟩
      · rw [hval]
        rw [show ((roundMantissa a.natAbs (floatExp a.natAbs) : ℕ) : ℚ) *
            (2 : ℚ) ^ (floatExp a.natAbs - 52) - (a : ℚ) / 100 =
            ((roundMantissa a.natAbs (floatExp a.natAbs) : ℕ) : ℚ) *
              (2 : ℚ) ^ (floatExp a.natAbs - 52) -
              ((a.natAbs : ℕ) : ℚ) / 100 by rw [hcast]]
        exact le_trans hb herr
      · rw [hval]
        positivity

/-- Claim C1 as amended: each of the five monetary fields of a returned
statement record holds the binary64 correctly rounded value of `a / 100`
(`pyDiv100 a`, the exact behaviour of CPython's integer true division):
its exact rational value is within relative error `2 ^ -53` of `a / 100`
— not, in general, equal to it — and the sign of `a` is preserved. -/
theorem claim_C1 (a : String) (f t now : Int) (w : Nat → HttpResult)
    (items : List StatementItem) (out : List (List (String × Json)))
    (st : Nat) (body : Json)
    (hw : w 0 = .response st body)
    (hv : validateStatementItems body = .ok items)
    (hres : (get_statement a f t now w).2 = .ok out) :
    ∀ i (hi : i < items.length) (ho : i < out.length),
      fieldOk (out.get ⟨i, ho⟩) "amount" (items.get ⟨i, hi⟩).amount ∧
      fieldOk (out.get ⟨i, ho⟩) "operation_amount"
        (items.get ⟨i, hi⟩).operation_amount ∧
      fieldOk (out.get ⟨i, ho⟩) "commission_rate"
        (items.get ⟨i, hi⟩).commission_rate ∧
      fieldOk (out.get ⟨i, ho⟩) "cashback_amount"
        (items.get ⟨i, hi⟩).cashback_amount ∧
      fieldOk (out.get ⟨i, ho⟩) "balance" (items.get ⟨i, hi⟩).balance := by
  obtain ⟨st2, body2, items2, hw2, hs1, hs2, hv2, htr⟩ :=
    get_statement_ok_inv hres
  rw [hw] at hw2
  cases hw2
  rw [hv] at hv2
  cases hv2
  intro i hi ho
  have hg := transformList_get htr i (by simpa using hi) ho
  have hg2 : transformItem (dumpStatementItem (items.get ⟨i, hi⟩)) =
      .ok (out.get ⟨i, ho⟩) := by simpa [List.getElem_map] using hg
  obtain ⟨ts, f1, f2, f3, f4, f5, hts, h1, h2, h3, h4, h5, hout⟩ :=
    transformItem_dump_inv hg2
  rw [hout]
  refine ⟨?_, ?_, ?_, ?_, ?_⟩
  · obtain ⟨hb, hsgn, hneg, hz⟩ := pyDiv100_spec _ _ h1
    exact ⟨f1.1, f1.2, by simp [jget], by simpa using h1, hb, hsgn, hneg, hz⟩
  · obtain ⟨hb, hsgn, hneg, hz⟩ := pyDiv100_spec _ _ h2
    exact ⟨f2.1, f2.2, by simp [jget], by simpa using h2, hb, hsgn, hneg, hz⟩
  · obtain ⟨hb, hsgn, hneg, hz⟩ := pyDiv100_spec _ _ h3
    exact ⟨f3.1, f3.2, by simp [jget], by simpa using h3, hb, hsgn, hneg, hz⟩
  · obtain ⟨hb, hsgn, hneg, hz⟩ := pyDiv100_spec _ _ h4
    exact ⟨f4.1, f4.2, by simp [jget], by simpa using h4, hb, hsgn, hneg, hz⟩
  · obtain ⟨hb, hsgn, hneg, hz⟩ := pyDiv100_spec _ _ h5
    exact ⟨f5.1, f5.2, by simp [jget], by simpa using h5, hb, hsgn, hneg, hz⟩

/-- Claim C1 witness: the concrete one-element statement exchange,
instantiated at its single item. -/
theorem claim_C1_witness :
    fieldOk sampleOut "amount" sampleItem.amount ∧
    fieldOk sampleOut "operation_amount" sampleItem.operation_amount ∧
    fieldOk sampleOut "commission_rate" sampleItem.commission_rate ∧
    fieldOk sampleOut "cashback_amount" sampleItem.cashback_amount ∧
    fieldOk sampleOut "balance" sampleItem.balance :=
  claim_C1 "0" 1 2 3 sampleWorld [sampleItem] [sampleOut] 200
    (.arr [sampleItemBody]) rfl rfl rfl 0 (by decide) (by decide)

/-- Claim C1 counterexample: with validated `cashback_amount = 1` the
returned field holds the binary64 value `5764607523034235 * 2 ^ -59`,
whose exact rational value is not `1 / 100`: the transformed decimal does
not equal `a / 100` exactly as a rational number. -/
theorem claim_C1_counterexample :
    (get_statement "0" 1 2 3 sampleWorld).2 = .ok [sampleOut] ∧
    validateStatementItems (.arr [sampleItemBody]) = .ok [sampleItem] ∧
    sampleItem.cashback_amount = 1 ∧
    jget sampleOut "cashback_amount" =
      some (.float 5764607523034235 (-59)) ∧
    floatVal 5764607523034235 (-59) ≠ (1 : ℚ) / 100 := by
  refine ⟨rfl, rfl, rfl, rfl, ?_⟩
  intro hcontra
  rw [floatVal, show ((-59 : ℤ)) = -((59 : ℕ) : ℤ) by norm_num, zpow_neg,
    zpow_natCast] at hcontra
  have h2 : ((2 : ℚ) ^ (59 : ℕ)) ≠ 0 := by positivity
  field_simp at hcontra
  norm_num at hcontra

set_option maxRecDepth 65536 in
/-- The month estimate/correction step of `_ord2ymd`, checked over every
day index of a year (0..364; a leap year's day 365 is handled by the
special branch) and both values of the leap flag: the corrected month is
1..12, the corrected day is 1..31, and days-before-month plus day
reassembles the day index. -/
theorem monthStepAll : ∀ E < 365, ∀ L : Bool,
    1 ≤ (if E < daysBeforeMonthTable ((E + 50) / 32) + (if 2 < (E + 50) / 32 ∧ L = true then 1 else 0) then (E + 50) / 32 - 1 else (E + 50) / 32) ∧
    (if E < daysBeforeMonthTable ((E + 50) / 32) + (if 2 < (E + 50) / 32 ∧ L = true then 1 else 0) then (E + 50) / 32 - 1 else (E + 50) / 32) ≤ 12 ∧
    1 ≤ E - (if E < daysBeforeMonthTable ((E + 50) / 32) + (if 2 < (E + 50) / 32 ∧ L = true then 1 else 0) then (daysBeforeMonthTable ((E + 50) / 32) + (if 2 < (E + 50) / 32 ∧ L = true then 1 else 0)) - (daysInMonthTable (if E < daysBeforeMonthTable ((E + 50) / 32) + (if 2 < (E + 50) / 32 ∧ L = true then 1 else 0) then (E + 50) / 32 - 1 else (E + 50) / 32) + (if (if E < daysBeforeMonthTable ((E + 50) / 32) + (if 2 < (E + 50) / 32 ∧ L = true then 1 else 0) then (E + 50) / 32 - 1 else (E + 50) / 32) = 2 ∧ L = true then 1 else 0)) else daysBeforeMonthTable ((E + 50) / 32) + (if 2 < (E + 50) / 32 ∧ L = true then 1 else 0)) + 1 ∧
    E - (if E < daysBeforeMonthTable ((E + 50) / 32) + (if 2 < (E + 50) / 32 ∧ L = true then 1 else 0) then (daysBeforeMonthTable ((E + 50) / 32) + (if 2 < (E + 50) / 32 ∧ L = true then 1 else 0)) - (daysInMonthTable (if E < daysBeforeMonthTable ((E + 50) / 32) + (if 2 < (E + 50) / 32 ∧ L = true then 1 else 0) then (E + 50) / 32 - 1 else (E + 50) / 32) + (if (if E < daysBeforeMonthTable ((E + 50) / 32) + (if 2 < (E + 50) / 32 ∧ L = true then 1 else 0) then (E + 50) / 32 - 1 else (E + 50) / 32) = 2 ∧ L = true then 1 else 0)) else daysBeforeMonthTable ((E + 50) / 32) + (if 2 < (E + 50) / 32 ∧ L = true then 1 else 0)) + 1 ≤ 31 ∧
    daysBeforeMonthTable (if E < daysBeforeMonthTable ((E + 50) / 32) + (if 2 < (E + 50) / 32 ∧ L = true then 1 else 0) then (E + 50) / 32 - 1 else (E + 50) / 32) +
      (if 2 < (if E < daysBeforeMonthTable ((E + 50) / 32) + (if 2 < (E + 50) / 32 ∧ L = true then 1 else 0) then (E + 50) / 32 - 1 else (E + 50) / 32) ∧ L = true then 1 else 0) + (E - (if E < daysBeforeMonthTable ((E + 50) / 32) + (if 2 < (E + 50) / 32 ∧ L = true then 1 else 0) then (daysBeforeMonthTable ((E + 50) / 32) + (if 2 < (E + 50) / 32 ∧ L = true then 1 else 0)) - (daysInMonthTable (if E < daysBeforeMonthTable ((E + 50) / 32) + (if 2 < (E + 50) / 32 ∧ L = true then 1 else 0) then (E + 50) / 32 - 1 else (E + 50) / 32) + (if (if E < daysBeforeMonthTable ((E + 50) / 32) + (if 2 < (E + 50) / 32 ∧ L = true then 1 else 0) then (E + 50) / 32 - 1 else (E + 50) / 32) = 2 ∧ L = true then 1 else 0)) else daysBeforeMonthTable ((E + 50) / 32) + (if 2 < (E + 50) / 32 ∧ L = true then 1 else 0)) + 1) = E + 1 := by
  decide

set_option maxHeartbeats 4000000 in
set_option maxRecDepth 65536 in
/-- `_ord2ymd` inverts `_ymd2ord` on the whole `datetime` range: for day
number `n` (day 0 = 0001-01-01, day 3652058 = 9999-12-31) the produced
fields are a valid calendar date whose ordinal is `n + 1`, and days from
364877 on fall in years 1000..9999. -/
theorem ord2ymd_spec (n : Nat) (h : n ≤ 3652058) :
    ymd2ord (ord2ymd n).1 (ord2ymd n).2.1 (ord2ymd n).2.2 = n + 1 ∧
    1 ≤ (ord2ymd n).1 ∧ (ord2ymd n).1 ≤ 9999 ∧
    1 ≤ (ord2ymd n).2.1 ∧ (ord2ymd n).2.1 ≤ 12 ∧
    1 ≤ (ord2ymd n).2.2 ∧ (ord2ymd n).2.2 ≤ 31 ∧
    (364877 ≤ n → 1000 ≤ (ord2ymd n).1) := by
  unfold ord2ymd
  dsimp only
  set A := n / 146097 with hA
  set rA := n % 146097 with hrA
  set B := rA / 36524 with hB
  set rB := rA % 36524 with hrB
  set C := rB / 1461 with hC
  set rC := rB % 1461 with hrC
  set D := rC / 365 with hD
  set E := rC % 365 with hE
  have hkey : n = 146097 * A + 36524 * B + 1461 * C + 365 * D + E ∧
      36524 * B + 1461 * C + 365 * D + E ≤ 146096 ∧
      1461 * C + 365 * D + E ≤ 36523 ∧ 365 * D + E ≤ 1460 ∧ E ≤ 364 := by
    omega
  obtain ⟨k1, k2, k3, k4, k5⟩ := hkey
  clear_value A rA B rB C rC D E
  clear hA hrA hB hrB hC hrC hD hE
  by_cases hsp : D = 4 ∨ B = 4
  · rw [if_pos hsp]
    dsimp only
    rcases hsp with h4 | h4
    · have hC23 : C ≤ 23 := by omega
      have hB3 : B ≤ 3 := by omega
      have hyr : A * 400 + 1 + B * 100 + C * 4 + D - 1 = 400 * A + 100 * B + 4 * C + 4 := by
        omega
      rw [hyr]
      simp only [ymd2ord, daysBeforeYear, daysBeforeMonth,
        show daysBeforeMonthTable 12 = 334 from rfl]
      rw [show 400 * A + 100 * B + 4 * C + 4 - 1 = 400 * A + 100 * B + 4 * C + 3 from by omega]
      rw [show (400 * A + 100 * B + 4 * C + 3) / 4 = 100 * A + 25 * B + C from by omega]
      rw [show (400 * A + 100 * B + 4 * C + 3) / 100 = 4 * A + B from by omega]
      rw [show (400 * A + 100 * B + 4 * C + 3) / 400 = A from by omega]
      split_ifs with hlp
      · simp only [isLeap, Bool.and_eq_true, Bool.or_eq_true, beq_iff_eq,
          bne_iff_ne, ne_eq] at hlp
        omega
      · simp only [isLeap, Bool.and_eq_true, Bool.or_eq_true, beq_iff_eq,
          bne_iff_ne, ne_eq, not_and, not_or, not_not] at hlp
        omega
    · have hCD : C = 0 ∧ D = 0 := by omega
      have hyr : A * 400 + 1 + B * 100 + C * 4 + D - 1 = 400 * A + 400 := by omega
      rw [hyr]
      simp only [ymd2ord, daysBeforeYear, daysBeforeMonth,
        show daysBeforeMonthTable 12 = 334 from rfl]
      rw [show 400 * A + 400 - 1 = 400 * A + 399 from by omega]
      rw [show (400 * A + 399) / 4 = 100 * A + 99 from by omega]
      rw [show (400 * A + 399) / 100 = 4 * A + 3 from by omega]
      rw [show (400 * A + 399) / 400 = A from by omega]
      split_ifs with hlp
      · simp only [isLeap, Bool.and_eq_true, Bool.or_eq_true, beq_iff_eq,
          bne_iff_ne, ne_eq] at hlp
        omega
      · simp only [isLeap, Bool.and_eq_true, Bool.or_eq_true, beq_iff_eq,
          bne_iff_ne, ne_eq, not_and, not_or, not_not] at hlp
        omega
  · rw [if_neg hsp]
    dsimp only
    have hD3 : D ≤ 3 := by omega
    have hB3 : B ≤ 3 := by omega
    have hC24 : C ≤ 24 := by omega
    set L := (D == 3 && (C != 24 || B == 3)) with hL
    set Y := A * 400 + 1 + B * 100 + C * 4 + D with hY
    have e1 : (Y - 1) / 4 = 100 * A + 25 * B + C := by omega
    have e2 : (Y - 1) / 100 = 4 * A + B := by omega
    have e3 : (Y - 1) / 400 = A := by omega
    have hdby : daysBeforeYear Y = 146097 * A + 36524 * B + 1461 * C + 365 * D := by
      unfold daysBeforeYear
      rw [e1, e2, e3]
      omega
    clear e1 e2 e3
    have h1 : (isLeap Y = true) ↔ (D = 3 ∧ (C ≠ 24 ∨ B = 3)) := by
      unfold isLeap
      simp only [Bool.and_eq_true, Bool.or_eq_true, beq_iff_eq, bne_iff_ne, ne_eq]
      omega
    have h2 : (L = true) ↔ (D = 3 ∧ (C ≠ 24 ∨ B = 3)) := by
      rw [hL]
      simp only [Bool.and_eq_true, Bool.or_eq_true, beq_iff_eq, bne_iff_ne, ne_eq]
    have hiso : isLeap Y = L := by
      rw [Bool.eq_iff_iff, h1, h2]
    clear h1 h2
    clear_value Y L
    clear hL
    simp only [ymd2ord, daysBeforeMonth, hdby, hiso]
    have hbridge := monthStepAll E (by omega) L
    omega

/-- The rendered character of a decimal digit is an ASCII digit. -/
theorem digitChar_isDigit (d : Nat) (h : d ≤ 9) : (digitChar d).isDigit = true := by
  interval_cases d <;> decide

/-- Every rendered `isoString` has the exact `YYYY-MM-DDTHH:MM:SSZ`
shape: the zero-padded fields put a digit in every digit position. -/
theorem isoString_shape (y mo d hh mm ss : Nat) :
    matchesIsoShape (isoString y mo d hh mm ss) = true := by
  unfold matchesIsoShape isoString pad4 pad2
  dsimp only [List.cons_append, List.nil_append]
  simp only [Bool.and_eq_true]
  repeat' apply And.intro
  all_goals first
    | rfl
    | exact digitChar_isDigit _ (by omega)

/-- `utcfromtimestamp(t).strftime(...)` on instants of years 1000..9999:
the formatting succeeds and renders civil fields that are a valid calendar
date and time of day denoting exactly the instant `t` in UTC. -/
theorem pyUtcFormat_spec (t : Int)
    (h1 : -30610224000 ≤ t) (h2 : t ≤ 253402300799) :
    ∃ y mo d hh mm ss,
      pyUtcFormat t = .ok (isoString y mo d hh mm ss) ∧
      1000 ≤ y ∧ y ≤ 9999 ∧ 1 ≤ mo ∧ mo ≤ 12 ∧ 1 ≤ d ∧ d ≤ 31 ∧
      hh ≤ 23 ∧ mm ≤ 59 ∧ ss ≤ 59 ∧
      epochOfFields y mo d hh mm ss = t := by
  set n := (t + 62135596800).toNat with hn
  have hdays : n / 86400 ≤ 3652058 := by omega
  obtain ⟨hrt, hy1, hy2, hm1, hm2, hd1, hd2, hy1000⟩ :=
    ord2ymd_spec (n / 86400) hdays
  refine ⟨(ord2ymd (n / 86400)).1, (ord2ymd (n / 86400)).2.1,
    (ord2ymd (n / 86400)).2.2, n % 86400 / 3600, n % 86400 % 3600 / 60,
    n % 86400 % 60, ?_, ?_, hy2, hm1, hm2, hd1, hd2, ?_, ?_, ?_, ?_⟩
  · unfold pyUtcFormat
    rw [if_pos ⟨by omega, h2⟩, ← hn]
    rfl
  · exact hy1000 (by omega)
  · omega
  · omega
  · omega
  · unfold epochOfFields
    rw [hrt]
    omega

/-- Claim C2 as amended: for every statement item whose validated
epoch-seconds timestamp lies in years 1000..9999 (between -30610224000
and 253402300799), the `time` field of the corresponding record returned
by `get_statement` is a string of the exact shape `YYYY-MM-DDTHH:MM:SSZ`
whose civil fields denote the same instant as the timestamp interpreted
in UTC — no sub-second part, no local-offset suffix.  (Outside years
1..9999 the conversion raises ValueError instead of returning a string —
see the counterexample — and below year 1000 the `%Y` zero padding is
platform dependent, so the exact shape is only guaranteed from year 1000
on.) -/
theorem claim_C2 (a : String) (f t now : Int) (w : Nat → HttpResult)
    (items : List StatementItem) (out : List (List (String × Json)))
    (st : Nat) (body : Json)
    (hw : w 0 = .response st body)
    (hv : validateStatementItems body = .ok items)
    (hres : (get_statement a f t now w).2 = .ok out) :
    ∀ i (hi : i < items.length) (ho : i < out.length),
      -30610224000 ≤ (items.get ⟨i, hi⟩).time →
      (items.get ⟨i, hi⟩).time ≤ 253402300799 →
      ∃ y mo d hh mm ss,
        jget (out.get ⟨i, ho⟩) "time" =
          some (.str (isoString y mo d hh mm ss)) ∧
        matchesIsoShape (isoString y mo d hh mm ss) = true ∧
        1000 ≤ y ∧ y ≤ 9999 ∧ 1 ≤ mo ∧ mo ≤ 12 ∧ 1 ≤ d ∧ d ≤ 31 ∧
        hh ≤ 23 ∧ mm ≤ 59 ∧ ss ≤ 59 ∧
        epochOfFields y mo d hh mm ss = (items.get ⟨i, hi⟩).time := by
  obtain ⟨st2, body2, items2, hw2, hs1, hs2, hv2, htr⟩ :=
    get_statement_ok_inv hres
  rw [hw] at hw2
  cases hw2
  rw [hv] at hv2
  cases hv2
  intro i hi ho ht1 ht2
  have hg := transformList_get htr i (by simpa using hi) ho
  have hg2 : transformItem (dumpStatementItem (items.get ⟨i, hi⟩)) =
      .ok (out.get ⟨i, ho⟩) := by simpa [List.getElem_map] using hg
  obtain ⟨ts, f1, f2, f3, f4, f5, hts, _, _, _, _, _, hout⟩ :=
    transformItem_dump_inv hg2
  obtain ⟨y, mo, d, hh, mm, ss, hfmt, hy1, hy2, hmo1, hmo2, hd1, hd2,
    hhh, hmm, hss, hep⟩ := pyUtcFormat_spec _ ht1 ht2
  rw [hts] at hfmt
  injection hfmt with heq
  subst heq
  refine ⟨y, mo, d, hh, mm, ss, ?_, isoString_shape y mo d hh mm ss,
    hy1, hy2, hmo1, hmo2, hd1, hd2, hhh, hmm, hss, hep⟩
  rw [hout]
  simp [jget]

/-- Claim C2 witness: the concrete one-element exchange (timestamp
1700000000), instantiated at its single item. -/
theorem claim_C2_witness :
    ∃ y mo d hh mm ss,
      jget sampleOut "time" = some (.str (isoString y mo d hh mm ss)) ∧
      matchesIsoShape (isoString y mo d hh mm ss) = true ∧
      1000 ≤ y ∧ y ≤ 9999 ∧ 1 ≤ mo ∧ mo ≤ 12 ∧ 1 ≤ d ∧ d ≤ 31 ∧
      hh ≤ 23 ∧ mm ≤ 59 ∧ ss ≤ 59 ∧
      epochOfFields y mo d hh mm ss = sampleItem.time :=
  claim_C2 "0" 1 2 3 sampleWorld [sampleItem] [sampleOut] 200
    (.arr [sampleItemBody]) rfl rfl rfl 0 (by decide) (by decide)
    (by decide) (by decide)

/-- Claim C2 counterexample: a validated statement item whose timestamp,
253402300800, is the first second of year 10000.  The claim promises a
formatted time string for every epoch-seconds integer in a returned
record, but the call returns no record at all: `utcfromtimestamp` raises
ValueError, so `get_statement` fails instead of producing the string. -/
theorem claim_C2_counterexample :
    validateStatementItems (.arr [lateItemBody]) = .ok [lateItem] ∧
    lateItem.time = 253402300800 ∧
    (get_statement "0" 1 2 3 lateWorld).2 = .error .valueError :=
  ⟨rfl, rfl, rfl⟩

end Monobank
